import Mathlib

/-! # pfcpiface: forwarding action rules (FAR) and the PFCP node

A shallow embedding of `pfcpiface/parse_far.go`, `pfcpiface/session_far.go` and, of
`pfcpiface/node.go`, the datagram loop of `handleNewPeers` and the shutdown branch of
`Serve`.

* Machine integers (`uint8`, `uint16`, `uint32`, `uint64`) are natural numbers; the
  embedded code only copies and compares them and masks `ApplyAction`, so no
  wrap-around can occur.
* A method with a pointer receiver becomes a function that takes the old value of
  the receiver and returns the new one next to the returned error
  (`none` is Go's `nil` error).
* The information elements come from the external `go-pfcp` library. An element is
  represented by the results of the accessor methods that the code calls on it.
* `ip2int` and `int2ip` are declared outside the embedded files; the functions that
  call them take them as their first argument.
* The packet library called by `addEndMarker` is an argument of it; `wireSerialize` is
  the library as it writes the wire formats of the four layers, with its checksum sums as
  an argument.
* `Far.parseFAR` gives what a call returns. `Far.parseFAROrPanic` is the same code with
  the panics of the calls made by the sub-element loop, given by an argument; the two
  agree on every call that returns (`parseFAROrPanic_returns`).
* What other tasks send on the channel `pConnDone` during shutdown is an explicit
  argument, the arrivals.
* Logging has no effect on the state and is left out.
-/

namespace Pfcpiface

/-- Go's `net.IP`, a slice of bytes. -/
abbrev IP := List Nat

/-- Modelled from the spec: the error values. `ErrNotFound`, `ErrInvalidArgument` and
`ErrInvalidOperation` are declared outside the embedded files; `decode` stands for an
error returned by an accessor of the information-element library. -/
inductive Error where
  | notFound (what : String)
  | invalidArgument (name : String) (value : Nat)
  | invalidOperation (op : Int)
  | decode (code : Nat)
  deriving DecidableEq, Repr

/-- Constructor of the "not found" error. -/
def ErrNotFound (what : String) : Error := Error.notFound what

/-- Constructor of the "invalid argument" error. -/
def ErrInvalidArgument (name : String) (value : Nat) : Error := Error.invalidArgument name value

/-- Constructor of the "invalid operation" error. -/
def ErrInvalidOperation (op : Int) : Error := Error.invalidOperation op

/-- The type `operation` of `parse_far.go` is a Go `int`. -/
abbrev operation := Int

/-- First value of the `iota` block of operations. -/
def create : operation := 0

/-- Second value of the `iota` block of operations. -/
def update : operation := 1

/-- Apply-Action bit `ActionForward`. -/
def ActionForward : Nat := 0x2

/-- Apply-Action bit `ActionDrop`. -/
def ActionDrop : Nat := 0x1

/-- Apply-Action bit `ActionBuffer`. -/
def ActionBuffer : Nat := 0x4

/-- Apply-Action bit `ActionNotify`. -/
def ActionNotify : Nat := 0x8

/-- Modelled from the spec: the constant `tunnelGTPUPort` is declared outside the embedded
files; it is the well-known GTP-U port, 2152 (`defaultGTPProtocolPort` in the test). -/
def tunnelGTPUPort : Nat := 2152

/-- Modelled from the spec: the helper `has2ndBit` is declared outside the embedded files;
it tests the second bit (mask `0x02`) of a flags byte. -/
def has2ndBit (flags : Nat) : Bool := (flags &&& 0x02) != 0

/-- Library constant `ie.OuterHeaderCreation` (information-element type 84). -/
def ieOuterHeaderCreation : Nat := 84

/-- Library constant `ie.DestinationInterface` (information-element type 42). -/
def ieDestinationInterface : Nat := 42

/-- Library constant `ie.PFCPSMReqFlags` (information-element type 49). -/
def iePFCPSMReqFlags : Nat := 49

/-- Library constant `ie.DstInterfaceAccess`. -/
def DstInterfaceAccess : Nat := 0

/-- Library constant `ie.DstInterfaceCore`. -/
def DstInterfaceCore : Nat := 1

/-- The struct `Far` of `parse_far.go`. -/
structure Far where
  FarID : Nat := 0
  FseID : Nat := 0
  FseidIP : Nat := 0
  DstIntf : Nat := 0
  SendEndMarker : Bool := false
  ApplyAction : Nat := 0
  TunnelType : Nat := 0
  TunnelIP4Src : Nat := 0
  TunnelIP4Dst : Nat := 0
  TunnelTEID : Nat := 0
  TunnelPort : Nat := 0
  deriving DecidableEq, Repr

/-- The method `Drops`. -/
def Far.Drops (f : Far) : Bool := (f.ApplyAction &&& ActionDrop) != 0

/-- The method `Buffers`. -/
def Far.Buffers (f : Far) : Bool := (f.ApplyAction &&& ActionBuffer) != 0

/-- The method `Forwards`. -/
def Far.Forwards (f : Far) : Bool := (f.ApplyAction &&& ActionForward) != 0

/-- The part of the struct `Upf` that `parseFAR` reads. -/
structure Upf where
  AccessIP : IP
  CoreIP : IP
  deriving DecidableEq, Repr

/-- The value returned by the library accessor `OuterHeaderCreation()`; only the two fields
that `parseFAR` reads. -/
structure OuterHeaderCreationFields where
  TEID : Nat
  IPv4Address : IP
  deriving DecidableEq, Repr

/-- A sub-element of a forwarding-parameters group: its `Type` and what each accessor that
`parseFAR` may call on it returns. `DestinationInterface()` is kept as Go's pair
(value, error) because the code stores the value before it looks at the error; the other
two results are only used when the error is `nil`. -/
structure FwdIE where
  ieType : Nat
  OuterHeaderCreation : Except Error OuterHeaderCreationFields
  DestinationInterface : Nat × Option Error
  PFCPSMReqFlags : Except Error Nat

/-- A Create-FAR or Update-FAR information element: what each accessor that `parseFAR`
calls on it returns. -/
structure FarIE where
  FARID : Except Error Nat
  ApplyAction : Except Error Nat
  ForwardingParameters : Except Error (List FwdIE)
  UpdateForwardingParameters : Except Error (List FwdIE)

/-- One iteration of the loop `for _, fwdIE := range fwdIEs` of `parseFAR`, as a function
of the record. The local bit set `fields` is written by the loop and never read, so it is
not part of the state. -/
def parseFwdIE (ip2int : IP → Nat) (upf : Upf) (f : Far) (fwdIE : FwdIE) : Far :=
  if fwdIE.ieType = ieOuterHeaderCreation then
    match fwdIE.OuterHeaderCreation with
    | .error _ => f
    | .ok ohcFields =>
      { f with
        TunnelTEID := ohcFields.TEID
        TunnelIP4Dst := ip2int ohcFields.IPv4Address
        TunnelType := 1
        TunnelPort := tunnelGTPUPort }
  else if fwdIE.ieType = ieDestinationInterface then
    let f1 : Far := { f with DstIntf := fwdIE.DestinationInterface.1 }
    match fwdIE.DestinationInterface.2 with
    | some _ => f1
    | none =>
      if f1.DstIntf = DstInterfaceAccess then
        { f1 with TunnelIP4Src := ip2int upf.AccessIP }
      else if f1.DstIntf = DstInterfaceCore then
        { f1 with TunnelIP4Src := ip2int upf.CoreIP }
      else f1
  else if fwdIE.ieType = iePFCPSMReqFlags then
    match fwdIE.PFCPSMReqFlags with
    | .error _ => f
    | .ok smReqFlags => if has2ndBit smReqFlags then { f with SendEndMarker := true } else f
  else f

/-- The tail of `parseFAR`, from `f.SendEndMarker = false` to `return nil`. -/
def parseFwdIEs (ip2int : IP → Nat) (upf : Upf) (f : Far) (fwdIEs : List FwdIE) :
    Far × Option Error :=
  (fwdIEs.foldl (parseFwdIE ip2int upf) { f with SendEndMarker := false }, none)

/-- The method `parseFAR`: the record after the call and the returned error. -/
def Far.parseFAR (ip2int : IP → Nat) (f : Far) (farIE : FarIE) (fseid : Nat) (upf : Upf)
    (op : operation) : Far × Option Error :=
  let f : Far := { f with FseID := fseid }
  match farIE.FARID with
  | .error err => (f, some err)
  | .ok farID =>
    let f : Far := { f with FarID := farID }
    match farIE.ApplyAction with
    | .error err => (f, some err)
    | .ok action =>
      if action = 0 then (f, some (ErrInvalidArgument "FAR Action" action))
      else
        let f : Far := { f with ApplyAction := action }
        if op = create then
          if (f.ApplyAction &&& ActionForward) ≠ 0 then
            match farIE.ForwardingParameters with
            | .error err => (f, some err)
            | .ok fwdIEs => parseFwdIEs ip2int upf f fwdIEs
          else parseFwdIEs ip2int upf f []
        else if op = update then
          match farIE.UpdateForwardingParameters with
          | .error err => (f, some err)
          | .ok fwdIEs => parseFwdIEs ip2int upf f fwdIEs
        else (f, some (ErrInvalidOperation op))

/-- The struct `EndMarker` of `session_far.go`. -/
structure EndMarker where
  TEID : Nat
  PeerIP : IP
  PeerPort : Nat
  deriving DecidableEq, Repr

/-- The part of the struct `PFCPSession` that the FAR store uses: the slice `Fars`. -/
structure PFCPSession where
  Fars : List Far
  deriving DecidableEq, Repr

/-- The method `CreateFAR`. -/
def PFCPSession.CreateFAR (s : PFCPSession) (f : Far) : PFCPSession :=
  { s with Fars := s.Fars ++ [f] }

/-- The function `addEndMarkerForGtp`: the list after the call. -/
def addEndMarkerForGtp (int2ip : Nat → IP) (farItem : Far) (endMarkerList : List EndMarker) :
    List EndMarker :=
  let newEndMarker : EndMarker :=
    { TEID := farItem.TunnelTEID
      PeerIP := int2ip farItem.TunnelIP4Dst
      PeerPort := farItem.TunnelPort }
  endMarkerList ++ [newEndMarker]

/-- The loop `for idx, v := range s.Fars` with the test `v.FarID == id`, shared by
`UpdateFAR` and `RemoveFAR`: run on the elements that remain, with `idx` the index of the
first of them, it gives the index and the element at which the loop body is entered. -/
def scanFars (id : Nat) : List Far → Nat → Option (Nat × Far)
  | [], _ => none
  | v :: rest, idx => if v.FarID = id then some (idx, v) else scanFars id rest (idx + 1)

/-- The method `UpdateFAR`: the session and the end-marker list after the call, and the
returned error. -/
def PFCPSession.UpdateFAR (int2ip : Nat → IP) (s : PFCPSession) (f : Far)
    (endMarkerList : List EndMarker) : PFCPSession × List EndMarker × Option Error :=
  match scanFars f.FarID s.Fars 0 with
  | some (idx, v) =>
    let endMarkerList1 :=
      if f.SendEndMarker then addEndMarkerForGtp int2ip v endMarkerList else endMarkerList
    ({ s with Fars := s.Fars.set idx f }, endMarkerList1, none)
  | none => (s, endMarkerList, some (ErrNotFound "FAR"))

/-- The method `RemoveFAR`: the session after the call, the returned rule (`none` is
Go's `nil` pointer) and the returned error. -/
def PFCPSession.RemoveFAR (s : PFCPSession) (id : Nat) :
    PFCPSession × Option Far × Option Error :=
  match scanFars id s.Fars 0 with
  | some (idx, v) =>
    ({ s with Fars := s.Fars.take idx ++ s.Fars.drop (idx + 1) }, some v, none)
  | none => (s, none, some (ErrNotFound "FAR"))

/-- A big-endian `int2ip`, used to evaluate the definitions on concrete inputs. -/
def int2ipBE (n : Nat) : IP := [n / 16777216 % 256, n / 65536 % 256, n / 256 % 256, n % 256]

/-- A big-endian `ip2int`, used to evaluate the definitions on concrete inputs. -/
def ip2intBE (ip : IP) : Nat := ip.foldl (fun acc b => acc * 256 + b) 0

/-- A stored rule that forwards and has `SendEndMarker = true`. -/
def storedForwarding : Far :=
  { FarID := 1, ApplyAction := ActionForward, SendEndMarker := true,
    TunnelTEID := 7, TunnelIP4Dst := 167772417, TunnelPort := 2152 }

/-- A stored rule that drops and has `SendEndMarker = false`. -/
def storedDropping : Far := { FarID := 1, ApplyAction := ActionDrop }

/-- An update for rule 1 without the end-marker flag. -/
def updateNoFlag : Far :=
  { FarID := 1, ApplyAction := ActionForward, TunnelTEID := 9, TunnelIP4Dst := 167772418,
    TunnelPort := 2152 }

/-- An update for rule 1 with the end-marker flag and tunnel fields of its own. -/
def updateWithFlag : Far :=
  { FarID := 1, ApplyAction := ActionForward, SendEndMarker := true,
    TunnelTEID := 9, TunnelIP4Dst := 167772418, TunnelPort := 2153 }

/-- A session that holds rule 1 twice, around rule 2. -/
def sessionDup : PFCPSession :=
  { Fars := [{ FarID := 2 }, storedForwarding, { FarID := 3 }, storedDropping] }

/-- A well-formed Destination-Interface sub-element with value `v`. -/
def dstIntfIE (v : Nat) : FwdIE :=
  { ieType := ieDestinationInterface
    OuterHeaderCreation := .error (.decode 1)
    DestinationInterface := (v, none)
    PFCPSMReqFlags := .error (.decode 1) }

/-- A Destination-Interface sub-element with an empty payload: the library accessor returns
the value 0 together with an error. -/
def dstIntfMalformedIE : FwdIE :=
  { ieType := ieDestinationInterface
    OuterHeaderCreation := .error (.decode 1)
    DestinationInterface := (0, some (.decode 2))
    PFCPSMReqFlags := .error (.decode 1) }

/-- A well-formed Outer-Header-Creation sub-element. -/
def outerHeaderIE (teid : Nat) (ip : IP) : FwdIE :=
  { ieType := ieOuterHeaderCreation
    OuterHeaderCreation := .ok { TEID := teid, IPv4Address := ip }
    DestinationInterface := (0, some (.decode 1))
    PFCPSMReqFlags := .error (.decode 1) }

/-- The configuration of the tests: access 192.168.0.1, core 10.0.10.1. -/
def testUpf : Upf := { AccessIP := [192, 168, 0, 1], CoreIP := [10, 0, 10, 1] }

/-- A Create-FAR element with FAR-ID 1, Apply-Action 0 and a forwarding group, as in the
first case of `TestParseFARShouldError`. -/
def zeroActionIE : FarIE :=
  { FARID := .ok 1
    ApplyAction := .ok 0
    ForwardingParameters := .ok [dstIntfIE DstInterfaceCore]
    UpdateForwardingParameters := .error (.decode 3) }

/-- An element without FAR-ID, with Apply-Action Drop and an update-forwarding group, as in
the last case of `TestParseFARShouldError`. -/
def noFarIDIE : FarIE :=
  { FARID := .error (.decode 4)
    ApplyAction := .ok ActionDrop
    ForwardingParameters := .error (.decode 3)
    UpdateForwardingParameters :=
      .ok [dstIntfIE DstInterfaceAccess, outerHeaderIE 100 [10, 0, 0, 1]] }

/-- A Create-FAR element with FAR-ID 1 and Apply-Action Forward that carries no
forwarding-parameters group: the library accessor `ForwardingParameters()` fails. -/
def forwardNoGroupIE : FarIE :=
  { FARID := .ok 1
    ApplyAction := .ok ActionForward
    ForwardingParameters := .error (.decode 3)
    UpdateForwardingParameters := .error (.decode 3) }

/-- A Create-FAR element with FAR-ID 999, Apply-Action Drop and a forwarding group, as in
the first case of `TestParseFAR`. -/
def dropIE : FarIE :=
  { FARID := .ok 999
    ApplyAction := .ok ActionDrop
    ForwardingParameters := .ok [dstIntfIE 2]
    UpdateForwardingParameters := .error (.decode 3) }

/-- An Update-FAR element with FAR-ID 1, Apply-Action Forward and the group
Destination-Interface 1, Outer-Header-Creation (TEID 100, 10.0.1.1), as in the second case
of `TestParseFAR`. -/
def updateForwardIE : FarIE :=
  { FARID := .ok 1
    ApplyAction := .ok ActionForward
    ForwardingParameters := .error (.decode 3)
    UpdateForwardingParameters := .ok [dstIntfIE 1, outerHeaderIE 100 [10, 0, 1, 1]] }

/-- An Update-FAR element whose group holds a well-formed Destination-Interface with the
core value followed by a Destination-Interface with an empty payload. -/
def coreThenMalformedIE : FarIE :=
  { FARID := .ok 1
    ApplyAction := .ok ActionForward
    ForwardingParameters := .error (.decode 3)
    UpdateForwardingParameters := .ok [dstIntfIE DstInterfaceCore, dstIntfMalformedIE] }

/-- A record with every field set, to tell a kept field from a zeroed one. -/
def usedFar : Far :=
  { FarID := 11, FseID := 12, FseidIP := 13, DstIntf := 2, SendEndMarker := true,
    ApplyAction := 4, TunnelType := 1, TunnelIP4Src := 14, TunnelIP4Dst := 15,
    TunnelTEID := 16, TunnelPort := 17 }

/-- An Update-FAR element whose group holds only a well-formed Destination-Interface with
the core value: `coreThenMalformedIE` without its malformed sub-element. -/
def coreOnlyIE : FarIE :=
  { FARID := .ok 1
    ApplyAction := .ok ActionForward
    ForwardingParameters := .error (.decode 3)
    UpdateForwardingParameters := .ok [dstIntfIE DstInterfaceCore] }

/-- An Outer-Header-Creation sub-element whose decoding fails. -/
def outerHeaderMalformedIE : FwdIE :=
  { ieType := ieOuterHeaderCreation
    OuterHeaderCreation := .error (.decode 5)
    DestinationInterface := (0, some (.decode 1))
    PFCPSMReqFlags := .error (.decode 1) }

/-- A well-formed PFCP-SM-Request-Flags sub-element with the flags byte `flags`. -/
def smReqFlagsIE (flags : Nat) : FwdIE :=
  { ieType := iePFCPSMReqFlags
    OuterHeaderCreation := .error (.decode 1)
    DestinationInterface := (0, some (.decode 1))
    PFCPSMReqFlags := .ok flags }

/-- An Update-FAR element whose group holds a malformed Outer-Header-Creation between a
Destination-Interface and a PFCP-SM-Request-Flags with the second bit set. -/
def malformedOuterHeaderGroupIE : FarIE :=
  { FARID := .ok 1
    ApplyAction := .ok ActionForward
    ForwardingParameters := .error (.decode 3)
    UpdateForwardingParameters :=
      .ok ([dstIntfIE DstInterfaceCore] ++ outerHeaderMalformedIE :: [smReqFlagsIE 2]) }

/-- Modelled from the spec: the connection object `PFCPConn` is declared outside the
embedded files; here it is what `New(localAddr, remoteAddr, seedDatagram|nil)` was given. -/
structure PFCPConn where
  lAddr : String
  rAddr : String
  seed : Option (List Nat)
  deriving DecidableEq, Repr

/-- The field `pConns` of `PFCPNode`, a `sync.Map` from the peer address string to the
connection, as an association list. -/
abbrev PeerMap := List (String × PFCPConn)

/-- The keys of the peer map. -/
def PeerMap.keys (m : PeerMap) : List String := m.map Prod.fst

/-- The method `Load` of `sync.Map`. -/
def PeerMap.Load (m : PeerMap) (key : String) : Option PFCPConn :=
  match m with
  | [] => none
  | (k, v) :: rest => if k = key then some v else PeerMap.Load rest key

/-- The method `Delete` of `sync.Map`. -/
def PeerMap.Delete (m : PeerMap) (key : String) : PeerMap := m.filter (fun e => e.1 ≠ key)

/-- The method `Store` of `sync.Map`: the entry for `key`, if any, is replaced. -/
def PeerMap.Store (m : PeerMap) (key : String) (v : PFCPConn) : PeerMap :=
  m.Delete key ++ [(key, v)]

/-- Modelled from the spec: the method `NewPFCPConn` is declared outside the embedded
files. It gives a connection or `nil` (`construct` decides which), and a constructed
connection is registered in the map under the remote address. -/
def NewPFCPConn (construct : String → String → Option (List Nat) → Option PFCPConn)
    (pConns : PeerMap) (lAddr rAddr : String) (buf : Option (List Nat)) :
    PeerMap × Option PFCPConn :=
  match construct lAddr rAddr buf with
  | none => (pConns, none)
  | some p => (pConns.Store rAddr p, some p)

/-- What one `node.ReadFrom(buf)` of the intake loop gives: the closed-socket error, another
error, or a datagram `buf[:n]` with its source address in string form. -/
inductive ReadResult where
  | closed
  | failed
  | datagram (rAddrStr : String) (payload : List Nat)
  deriving DecidableEq, Repr

/-- The state the intake loop works on: the peer map, and the connections constructed so
far with the address each was constructed for. -/
structure Intake where
  pConns : PeerMap
  constructed : List (String × PFCPConn)
  deriving DecidableEq, Repr

/-- The body of the loop of `handleNewPeers` after a successful `ReadFrom`: the lookup in
the peer map, the drop, the call of `NewPFCPConn`. -/
def handleDatagram (construct : String → String → Option (List Nat) → Option PFCPConn)
    (lAddrStr : String) (st : Intake) (rAddrStr : String) (payload : List Nat) : Intake :=
  match st.pConns.Load rAddrStr with
  | some _ => st
  | none =>
    match NewPFCPConn construct st.pConns lAddrStr rAddrStr (some payload) with
    | (pConns, some p) =>
      { pConns := pConns, constructed := st.constructed ++ [(rAddrStr, p)] }
    | (pConns, none) => { st with pConns := pConns }

/-- The loop `for { ... }` of `handleNewPeers`, run on the successive results of
`ReadFrom`: it returns on the closed-socket error and goes on after any other error. -/
def handleNewPeers (construct : String → String → Option (List Nat) → Option PFCPConn)
    (lAddrStr : String) : Intake → List ReadResult → Intake
  | st, [] => st
  | st, .closed :: _ => st
  | st, .failed :: rest => handleNewPeers construct lAddrStr st rest
  | st, .datagram rAddrStr payload :: rest =>
    handleNewPeers construct lAddrStr (handleDatagram construct lAddrStr st rAddrStr payload)
      rest

/-- What the other tasks send on the channel `pConnDone` while `Serve` runs its shutdown
branch: `duringClear` holds, for each successive `select` of `clearLoop`, the addresses
sent since the previous one; `beforeLenCheck` holds the addresses sent between the exit
of `clearLoop` and the evaluation of `len(node.pConnDone)`. -/
structure Arrivals where
  duringClear : List (List String)
  beforeLenCheck : List String
  deriving DecidableEq, Repr

/-- The loop `clearLoop` of `Serve`, on the peer map, the content of the channel and the
arrivals: a `select` receives the oldest address and deletes it from the map, and takes
the `default` branch, which leaves the loop, when the channel is empty. The channel is
never closed before this loop, so `ok` is always true. -/
def clearLoop : PeerMap → List String → List (List String) → PeerMap
  | pConns, q, [] => q.foldl PeerMap.Delete pConns
  | pConns, q, a :: rest =>
    match q ++ a with
    | [] => pConns
    | rAddr :: q1 => clearLoop (pConns.Delete rAddr) q1 rest

/-- The loop `for rAddr := range node.pConnDone`: a `range` over a channel ends only when
the channel is closed and empty; on an open channel it receives what there is and then
waits for ever (`none`). -/
def rangeLoop (pConns : PeerMap) (closed : Bool) (q : List String) : Option PeerMap :=
  if closed then some (q.foldl PeerMap.Delete pConns) else none

/-- The branch `case <-node.ctx.Done()` of `Serve` up to `close(node.done)`, on the peer
map and the content `q` of `pConnDone` when the branch is entered: `some m` when
`close(node.done)` is reached with the peer map `m`, `none` when `Serve` waits for ever
before it. `pConnDone` is closed only by `close(node.pConnDone)` after the `range` loop,
so the loop runs on an open channel; `node.Close()` and `node.upf.Exit()` are taken to
return. -/
def serveShutdown (pConns : PeerMap) (q : List String) (arr : Arrivals) : Option PeerMap :=
  let pConns1 := clearLoop pConns q arr.duringClear
  let q1 := arr.beforeLenCheck
  if q1.length > 0 then rangeLoop pConns1 false q1 else some pConns1

/-- A peer map with one registered connection. -/
def onePeer : PeerMap :=
  [("10.0.0.2:8805", { lAddr := "0.0.0.0:8805", rAddr := "10.0.0.2:8805", seed := none })]

/-- A constructor of connections that always gives a connection. -/
def alwaysConstruct (lAddr rAddr : String) (buf : Option (List Nat)) : Option PFCPConn :=
  some { lAddr := lAddr, rAddr := rAddr, seed := buf }

/-- The calls made by the sub-element loop of `parseFAR` that end in a run-time panic
instead of returning: each field tells, for the argument of the call, whether the call
panics. `ip2int` and the three accessors are outside the embedded files, and `parseFAR`
calls them with no guard and no `recover`, so a panic in one of them ends `parseFAR`
without a return value. The accessors of the FAR element itself are taken to return. -/
structure Panics where
  ip2int : IP → Bool
  OuterHeaderCreation : FwdIE → Bool
  DestinationInterface : FwdIE → Bool
  PFCPSMReqFlags : FwdIE → Bool

/-- One iteration of the loop of `parseFAR` with the panics of the calls it makes: `none`
when a call panics, otherwise the record after the iteration. The calls come in the order
of the source: the accessor first, `ip2int` on its result after the error check. -/
def parseFwdIEOrPanic (pn : Panics) (ip2int : IP → Nat) (upf : Upf) (f : Far)
    (fwdIE : FwdIE) : Option Far :=
  if fwdIE.ieType = ieOuterHeaderCreation then
    if pn.OuterHeaderCreation fwdIE then none
    else
      match fwdIE.OuterHeaderCreation with
      | .error _ => some f
      | .ok ohcFields =>
        if pn.ip2int ohcFields.IPv4Address then none
        else
          some { f with
            TunnelTEID := ohcFields.TEID
            TunnelIP4Dst := ip2int ohcFields.IPv4Address
            TunnelType := 1
            TunnelPort := tunnelGTPUPort }
  else if fwdIE.ieType = ieDestinationInterface then
    if pn.DestinationInterface fwdIE then none
    else
      let f1 : Far := { f with DstIntf := fwdIE.DestinationInterface.1 }
      match fwdIE.DestinationInterface.2 with
      | some _ => some f1
      | none =>
        if f1.DstIntf = DstInterfaceAccess then
          if pn.ip2int upf.AccessIP then none
          else some { f1 with TunnelIP4Src := ip2int upf.AccessIP }
        else if f1.DstIntf = DstInterfaceCore then
          if pn.ip2int upf.CoreIP then none
          else some { f1 with TunnelIP4Src := ip2int upf.CoreIP }
        else some f1
  else if fwdIE.ieType = iePFCPSMReqFlags then
    if pn.PFCPSMReqFlags fwdIE then none
    else
      match fwdIE.PFCPSMReqFlags with
      | .error _ => some f
      | .ok smReqFlags =>
        some (if has2ndBit smReqFlags then { f with SendEndMarker := true } else f)
  else some f

/-- The loop `for _, fwdIE := range fwdIEs` with the panics: it stops at the first
iteration that panics. -/
def parseFwdIEsLoopOrPanic (pn : Panics) (ip2int : IP → Nat) (upf : Upf) :
    Far → List FwdIE → Option Far
  | f, [] => some f
  | f, fwdIE :: rest =>
    match parseFwdIEOrPanic pn ip2int upf f fwdIE with
    | none => none
    | some f1 => parseFwdIEsLoopOrPanic pn ip2int upf f1 rest

/-- The tail of `parseFAR`, from `f.SendEndMarker = false` to `return nil`, with the
panics. -/
def parseFwdIEsOrPanic (pn : Panics) (ip2int : IP → Nat) (upf : Upf) (f : Far)
    (fwdIEs : List FwdIE) : Option (Far × Option Error) :=
  match parseFwdIEsLoopOrPanic pn ip2int upf { f with SendEndMarker := false } fwdIEs with
  | none => none
  | some f1 => some (f1, none)

/-- The method `parseFAR` with the panics of the calls made by its loop: `none` when the
call panics, otherwise the record after the call and the returned error. -/
def Far.parseFAROrPanic (pn : Panics) (ip2int : IP → Nat) (f : Far) (farIE : FarIE)
    (fseid : Nat) (upf : Upf) (op : operation) : Option (Far × Option Error) :=
  let f : Far := { f with FseID := fseid }
  match farIE.FARID with
  | .error err => some (f, some err)
  | .ok farID =>
    let f : Far := { f with FarID := farID }
    match farIE.ApplyAction with
    | .error err => some (f, some err)
    | .ok action =>
      if action = 0 then some (f, some (ErrInvalidArgument "FAR Action" action))
      else
        let f : Far := { f with ApplyAction := action }
        if op = create then
          if (f.ApplyAction &&& ActionForward) ≠ 0 then
            match farIE.ForwardingParameters with
            | .error err => some (f, some err)
            | .ok fwdIEs => parseFwdIEsOrPanic pn ip2int upf f fwdIEs
          else parseFwdIEsOrPanic pn ip2int upf f []
        else if op = update then
          match farIE.UpdateForwardingParameters with
          | .error err => some (f, some err)
          | .ok fwdIEs => parseFwdIEsOrPanic pn ip2int upf f fwdIEs
        else some (f, some (ErrInvalidOperation op))

/-- Whether the loop iteration on the sub-element `e` makes a call that panics; it does not
depend on the record. -/
def fwdIEPanics (pn : Panics) (upf : Upf) (e : FwdIE) : Bool :=
  if e.ieType = ieOuterHeaderCreation then
    pn.OuterHeaderCreation e ||
      (match e.OuterHeaderCreation with
       | .error _ => false
       | .ok ohcFields => pn.ip2int ohcFields.IPv4Address)
  else if e.ieType = ieDestinationInterface then
    pn.DestinationInterface e ||
      (match e.DestinationInterface.2 with
       | some _ => false
       | none =>
         if e.DestinationInterface.1 = DstInterfaceAccess then pn.ip2int upf.AccessIP
         else if e.DestinationInterface.1 = DstInterfaceCore then pn.ip2int upf.CoreIP
         else false)
  else if e.ieType = iePFCPSMReqFlags then pn.PFCPSMReqFlags e
  else false

/-- No call panics. -/
def noPanics : Panics :=
  { ip2int := fun _ => false
    OuterHeaderCreation := fun _ => false
    DestinationInterface := fun _ => false
    PFCPSMReqFlags := fun _ => false }

/-- The panics seen when the code runs: `ip2int` on an address of fewer than four bytes
(a missing address), and `PFCPSMReqFlags()` on a sub-element whose payload it cannot
decode, which it indexes without a length check instead of returning an error. -/
def observedPanics : Panics :=
  { ip2int := fun ip => decide (ip.length < 4)
    OuterHeaderCreation := fun _ => false
    DestinationInterface := fun _ => false
    PFCPSMReqFlags := fun e =>
      match e.PFCPSMReqFlags with
      | .error _ => true
      | .ok _ => false }

/-- A PFCP-SM-Request-Flags sub-element with an empty payload. -/
def smReqFlagsEmptyIE : FwdIE :=
  { ieType := iePFCPSMReqFlags
    OuterHeaderCreation := .error (.decode 1)
    DestinationInterface := (0, some (.decode 1))
    PFCPSMReqFlags := .error (.decode 7) }

/-- An Outer-Header-Creation sub-element that decodes but carries no IPv4 address. -/
def outerHeaderNoAddressIE : FwdIE :=
  { ieType := ieOuterHeaderCreation
    OuterHeaderCreation := .ok { TEID := 100, IPv4Address := [] }
    DestinationInterface := (0, some (.decode 1))
    PFCPSMReqFlags := .error (.decode 1) }

/-- A Create-FAR element with FAR-ID 1, Apply-Action Forward and the group
Destination-Interface core, Outer-Header-Creation (TEID 100, 10.0.1.1). -/
def createForwardIE : FarIE :=
  { FARID := .ok 1
    ApplyAction := .ok ActionForward
    ForwardingParameters := .ok [dstIntfIE DstInterfaceCore, outerHeaderIE 100 [10, 0, 1, 1]]
    UpdateForwardingParameters := .error (.decode 3) }

/-- A Create-FAR element with FAR-ID 1, Apply-Action Forward and a group whose
Outer-Header-Creation carries no IPv4 address. -/
def createForwardNoAddressIE : FarIE :=
  { FARID := .ok 1
    ApplyAction := .ok ActionForward
    ForwardingParameters := .ok [outerHeaderNoAddressIE]
    UpdateForwardingParameters := .error (.decode 3) }

/-- An Update-FAR element whose group holds a well-formed Destination-Interface with the
core value followed by a PFCP-SM-Request-Flags with an empty payload: `coreOnlyIE` with
the malformed sub-element added. -/
def emptyFlagsGroupIE : FarIE :=
  { FARID := .ok 1
    ApplyAction := .ok ActionForward
    ForwardingParameters := .error (.decode 3)
    UpdateForwardingParameters := .ok [dstIntfIE DstInterfaceCore, smReqFlagsEmptyIE] }

theorem scanFars_none (id : Nat) (l : List Far) (i : Nat) (h : ∀ v ∈ l, v.FarID ≠ id) :
    scanFars id l i = none := by
  induction l generalizing i with
  | nil => rfl
  | cons v rest ih =>
    have hv : v.FarID ≠ id := h v (List.mem_cons_self v rest)
    have hrest : ∀ u ∈ rest, u.FarID ≠ id := fun u hu => h u (List.mem_cons_of_mem v hu)
    simp [scanFars, hv, ih (i + 1) hrest]

theorem scanFars_split (id : Nat) (l : List Far) (i : Nat) (h : ∃ v ∈ l, v.FarID = id) :
    ∃ pre v post, l = pre ++ v :: post ∧ (∀ u ∈ pre, u.FarID ≠ id) ∧ v.FarID = id ∧
      scanFars id l i = some (i + pre.length, v) := by
  induction l generalizing i with
  | nil => obtain ⟨v, hv, _⟩ := h; cases hv
  | cons w rest ih =>
    by_cases hw : w.FarID = id
    · exact ⟨[], w, rest, rfl, by simp, hw, by simp [scanFars, hw]⟩
    · have hrest : ∃ v ∈ rest, v.FarID = id := by
        obtain ⟨v, hv, hvid⟩ := h
        rcases List.mem_cons.mp hv with rfl | hmem
        · exact absurd hvid hw
        · exact ⟨v, hmem, hvid⟩
      obtain ⟨pre, v, post, hl, hpre, hvid, hscan⟩ := ih (i + 1) hrest
      refine ⟨w :: pre, v, post, by simp [hl], ?_, hvid, ?_⟩
      · intro u hu
        rcases List.mem_cons.mp hu with rfl | hmem
        · exact hw
        · exact hpre u hmem
      · simp [scanFars, hw, hscan]; omega

theorem set_at_split (pre post : List Far) (v f : Far) :
    (pre ++ v :: post).set pre.length f = pre ++ f :: post := by
  induction pre with
  | nil => rfl
  | cons a pre ih => simp [ih]

theorem take_drop_at_split (pre post : List Far) (v : Far) :
    (pre ++ v :: post).take pre.length ++ (pre ++ v :: post).drop (pre.length + 1)
      = pre ++ post := by
  induction pre with
  | nil => simp
  | cons a pre ih => simp

theorem eraseIdx_at_split (pre post : List Far) (v : Far) :
    (pre ++ v :: post).eraseIdx pre.length = pre ++ post := by
  induction pre with
  | nil => rfl
  | cons a pre ih => simp [ih]

/-- What `UpdateFAR` does when the scan finds a rule: with `s.Fars = pre ++ v :: post` and
`v` the first rule that carries `f.FarID`. -/
theorem updateFAR_at_split (int2ip : Nat → IP) (s : PFCPSession) (f : Far)
    (acc : List EndMarker) (h : ∃ v ∈ s.Fars, v.FarID = f.FarID) :
    ∃ pre v post, s.Fars = pre ++ v :: post ∧ (∀ u ∈ pre, u.FarID ≠ f.FarID) ∧
      v.FarID = f.FarID ∧
      s.UpdateFAR int2ip f acc =
        ({ Fars := pre ++ f :: post },
         if f.SendEndMarker then addEndMarkerForGtp int2ip v acc else acc, none) := by
  obtain ⟨pre, v, post, hl, hpre, hv, hscan⟩ := scanFars_split f.FarID s.Fars 0 h
  refine ⟨pre, v, post, hl, hpre, hv, ?_⟩
  simp only [PFCPSession.UpdateFAR, hscan, Nat.zero_add]
  rw [hl, set_at_split]

/-- What `UpdateFAR` does when no stored rule carries `f.FarID`. -/
theorem updateFAR_absent (int2ip : Nat → IP) (s : PFCPSession) (f : Far)
    (acc : List EndMarker) (h : ∀ v ∈ s.Fars, v.FarID ≠ f.FarID) :
    s.UpdateFAR int2ip f acc = (s, acc, some (ErrNotFound "FAR")) := by
  simp only [PFCPSession.UpdateFAR, scanFars_none f.FarID s.Fars 0 h]

/-! ## Session FAR store -/

/-- C1, as the spec states it, fails: the stored rule forwards and has
`SendEndMarker = true`, the update does not carry the flag, and nothing is appended; and
the stored rule drops without the flag, the update carries it, and one end marker is
appended. -/
theorem updateFAR_stored_flag_counterexample :
    (storedForwarding.FarID = updateNoFlag.FarID ∧ storedForwarding.Forwards = true ∧
      storedForwarding.SendEndMarker = true ∧
      (PFCPSession.UpdateFAR int2ipBE { Fars := [storedForwarding] } updateNoFlag []).2.1 = [])
    ∧
    (storedDropping.FarID = updateWithFlag.FarID ∧ storedDropping.Forwards = false ∧
      storedDropping.SendEndMarker = false ∧
      (PFCPSession.UpdateFAR int2ipBE { Fars := [storedDropping] } updateWithFlag []).2.1.length
        = 1) := by
  decide

/-- C1, amended: for a session that holds a rule with `f.FarID`, `UpdateFAR f acc` appends
exactly one end marker to `acc` when the new rule `f` has `SendEndMarker = true`, and
leaves `acc` as it is when `f.SendEndMarker = false`; the stored rule's `ApplyAction` and
`SendEndMarker` play no part in the decision. -/
theorem updateFAR_endMarker_decision (int2ip : Nat → IP) (s : PFCPSession) (f : Far)
    (acc : List EndMarker) (h : ∃ v ∈ s.Fars, v.FarID = f.FarID) :
    (f.SendEndMarker = true → ∃ m, (s.UpdateFAR int2ip f acc).2.1 = acc ++ [m]) ∧
    (f.SendEndMarker = false → (s.UpdateFAR int2ip f acc).2.1 = acc) := by
  obtain ⟨pre, v, post, -, -, -, hres⟩ := updateFAR_at_split int2ip s f acc h
  rw [hres]
  constructor
  · intro hf
    refine ⟨{ TEID := v.TunnelTEID, PeerIP := int2ip v.TunnelIP4Dst,
              PeerPort := v.TunnelPort }, ?_⟩
    simp [hf, addEndMarkerForGtp]
  · intro hf
    simp [hf]

theorem updateFAR_endMarker_decision_witness :
    (∃ v ∈ sessionDup.Fars, v.FarID = updateNoFlag.FarID) ∧
    ((updateNoFlag.SendEndMarker = true →
        ∃ m, (sessionDup.UpdateFAR int2ipBE updateNoFlag []).2.1 = [] ++ [m]) ∧
     (updateNoFlag.SendEndMarker = false →
        (sessionDup.UpdateFAR int2ipBE updateNoFlag []).2.1 = [])) :=
  ⟨⟨storedForwarding, by decide, by decide⟩,
   updateFAR_endMarker_decision int2ipBE sessionDup updateNoFlag []
     ⟨storedForwarding, by decide, by decide⟩⟩

/-- C2: whenever `UpdateFAR f acc` appends to `acc`, the result is `acc` followed by one end
marker built from the stored rule `v`, the first rule in scan order with `f.FarID`:
`TEID = v.TunnelTEID`, `PeerIP = int2ip v.TunnelIP4Dst`, `PeerPort = v.TunnelPort`,
whatever the tunnel fields of `f` are. -/
theorem updateFAR_endMarker_from_stored (int2ip : Nat → IP) (s : PFCPSession) (f : Far)
    (acc : List EndMarker) (h : (s.UpdateFAR int2ip f acc).2.1 ≠ acc) :
    ∃ pre v post, s.Fars = pre ++ v :: post ∧ (∀ u ∈ pre, u.FarID ≠ f.FarID) ∧
      v.FarID = f.FarID ∧
      (s.UpdateFAR int2ip f acc).2.1 =
        acc ++ [{ TEID := v.TunnelTEID, PeerIP := int2ip v.TunnelIP4Dst,
                  PeerPort := v.TunnelPort }] := by
  by_cases hex : ∃ v ∈ s.Fars, v.FarID = f.FarID
  · obtain ⟨pre, v, post, hl, hpre, hv, hres⟩ := updateFAR_at_split int2ip s f acc hex
    refine ⟨pre, v, post, hl, hpre, hv, ?_⟩
    rw [hres] at h ⊢
    by_cases hf : f.SendEndMarker = true
    · simp [hf, addEndMarkerForGtp]
    · simp [hf] at h
  · have hno : ∀ v ∈ s.Fars, v.FarID ≠ f.FarID := fun v hv hid => hex ⟨v, hv, hid⟩
    rw [updateFAR_absent int2ip s f acc hno] at h
    exact absurd rfl h

theorem updateFAR_endMarker_from_stored_witness :
    (sessionDup.UpdateFAR int2ipBE updateWithFlag []).2.1 ≠ [] ∧
    ∃ pre v post, sessionDup.Fars = pre ++ v :: post ∧
      (∀ u ∈ pre, u.FarID ≠ updateWithFlag.FarID) ∧ v.FarID = updateWithFlag.FarID ∧
      (sessionDup.UpdateFAR int2ipBE updateWithFlag []).2.1 =
        [] ++ [{ TEID := v.TunnelTEID, PeerIP := int2ipBE v.TunnelIP4Dst,
                 PeerPort := v.TunnelPort }] :=
  ⟨by decide, updateFAR_endMarker_from_stored int2ipBE sessionDup updateWithFlag [] (by decide)⟩

/-- C3: when no stored rule carries the identifier, `UpdateFAR` returns the not-found error
with the session and the end-marker list as they were, and `RemoveFAR` returns
(`nil`, not-found) with the session as it was. -/
theorem far_notFound_unchanged (int2ip : Nat → IP) (s : PFCPSession) (f : Far)
    (acc : List EndMarker) (h : ∀ v ∈ s.Fars, v.FarID ≠ f.FarID) :
    s.UpdateFAR int2ip f acc = (s, acc, some (ErrNotFound "FAR")) ∧
    s.RemoveFAR f.FarID = (s, none, some (ErrNotFound "FAR")) := by
  refine ⟨updateFAR_absent int2ip s f acc h, ?_⟩
  simp only [PFCPSession.RemoveFAR, scanFars_none f.FarID s.Fars 0 h]

theorem far_notFound_unchanged_witness :
    (∀ v ∈ sessionDup.Fars, v.FarID ≠ ({ FarID := 5, SendEndMarker := true } : Far).FarID) ∧
    (sessionDup.UpdateFAR int2ipBE { FarID := 5, SendEndMarker := true } []
        = (sessionDup, [], some (ErrNotFound "FAR")) ∧
     sessionDup.RemoveFAR ({ FarID := 5, SendEndMarker := true } : Far).FarID
        = (sessionDup, none, some (ErrNotFound "FAR"))) :=
  ⟨by decide,
   far_notFound_unchanged int2ipBE sessionDup { FarID := 5, SendEndMarker := true } []
     (by decide)⟩

/-- C4: when some stored rule carries `id`, `RemoveFAR id` returns no error and the first
rule `v` in scan order with that identifier; the list loses exactly that position: it was
`pre ++ v :: post` with no rule of `pre` carrying `id`, and becomes `pre ++ post`, one
element shorter, every other rule (later rules with the same identifier too) in place. -/
theorem removeFAR_first_match (s : PFCPSession) (id : Nat) (h : ∃ v ∈ s.Fars, v.FarID = id) :
    ∃ pre v post, s.Fars = pre ++ v :: post ∧ (∀ u ∈ pre, u.FarID ≠ id) ∧ v.FarID = id ∧
      s.RemoveFAR id = ({ Fars := pre ++ post }, some v, none) ∧
      (s.RemoveFAR id).1.Fars = s.Fars.eraseIdx pre.length ∧
      (s.RemoveFAR id).1.Fars.length + 1 = s.Fars.length := by
  obtain ⟨pre, v, post, hl, hpre, hv, hscan⟩ := scanFars_split id s.Fars 0 h
  have hres : s.RemoveFAR id = ({ Fars := pre ++ post }, some v, none) := by
    simp only [PFCPSession.RemoveFAR, hscan, Nat.zero_add]
    rw [hl, take_drop_at_split]
  refine ⟨pre, v, post, hl, hpre, hv, hres, ?_, ?_⟩
  · rw [hres, hl, eraseIdx_at_split]
  · rw [hres, hl]; simp; omega

theorem removeFAR_first_match_witness :
    (∃ v ∈ sessionDup.Fars, v.FarID = 1) ∧
    ∃ pre v post, sessionDup.Fars = pre ++ v :: post ∧ (∀ u ∈ pre, u.FarID ≠ 1) ∧
      v.FarID = 1 ∧
      sessionDup.RemoveFAR 1 = ({ Fars := pre ++ post }, some v, none) ∧
      (sessionDup.RemoveFAR 1).1.Fars = sessionDup.Fars.eraseIdx pre.length ∧
      (sessionDup.RemoveFAR 1).1.Fars.length + 1 = sessionDup.Fars.length :=
  ⟨⟨storedForwarding, by decide, by decide⟩,
   removeFAR_first_match sessionDup 1 ⟨storedForwarding, by decide, by decide⟩⟩

/-- C5: `CreateFAR` appends without looking at the list, so two calls (with the same
`FarID` or not) leave both rules at the end of the list; and for a session that holds a
rule with `f.FarID`, `UpdateFAR f acc` succeeds and puts `f` at the first position in scan
order whose `FarID` is `f.FarID`: the list `pre ++ v :: post` becomes `pre ++ f :: post`,
of the same length, later rules with the same `FarID` untouched. -/
theorem createFAR_updateFAR_first_match (int2ip : Nat → IP) (s : PFCPSession) (f : Far)
    (acc : List EndMarker) (h : ∃ v ∈ s.Fars, v.FarID = f.FarID) :
    (∀ (t : PFCPSession) (f1 f2 : Far),
        ((t.CreateFAR f1).CreateFAR f2).Fars = t.Fars ++ [f1, f2]) ∧
    ∃ pre v post, s.Fars = pre ++ v :: post ∧ (∀ u ∈ pre, u.FarID ≠ f.FarID) ∧
      v.FarID = f.FarID ∧
      (s.UpdateFAR int2ip f acc).1.Fars = pre ++ f :: post ∧
      (s.UpdateFAR int2ip f acc).2.2 = none ∧
      (s.UpdateFAR int2ip f acc).1.Fars = s.Fars.set pre.length f ∧
      (s.UpdateFAR int2ip f acc).1.Fars.length = s.Fars.length := by
  refine ⟨fun t f1 f2 => by simp [PFCPSession.CreateFAR], ?_⟩
  obtain ⟨pre, v, post, hl, hpre, hv, hres⟩ := updateFAR_at_split int2ip s f acc h
  refine ⟨pre, v, post, hl, hpre, hv, ?_, ?_, ?_, ?_⟩
  · rw [hres]
  · rw [hres]
  · rw [hres, hl, set_at_split]
  · rw [hres, hl]; simp

theorem createFAR_updateFAR_first_match_witness :
    (∃ v ∈ sessionDup.Fars, v.FarID = updateWithFlag.FarID) ∧
    ((∀ (t : PFCPSession) (f1 f2 : Far),
        ((t.CreateFAR f1).CreateFAR f2).Fars = t.Fars ++ [f1, f2]) ∧
    ∃ pre v post, sessionDup.Fars = pre ++ v :: post ∧
      (∀ u ∈ pre, u.FarID ≠ updateWithFlag.FarID) ∧ v.FarID = updateWithFlag.FarID ∧
      (sessionDup.UpdateFAR int2ipBE updateWithFlag []).1.Fars = pre ++ updateWithFlag :: post ∧
      (sessionDup.UpdateFAR int2ipBE updateWithFlag []).2.2 = none ∧
      (sessionDup.UpdateFAR int2ipBE updateWithFlag []).1.Fars
        = sessionDup.Fars.set pre.length updateWithFlag ∧
      (sessionDup.UpdateFAR int2ipBE updateWithFlag []).1.Fars.length
        = sessionDup.Fars.length) :=
  ⟨⟨storedForwarding, by decide, by decide⟩,
   createFAR_updateFAR_first_match int2ipBE sessionDup updateWithFlag []
     ⟨storedForwarding, by decide, by decide⟩⟩

/-! ## The FAR parser -/

/-- One loop iteration of `parseFAR` leaves the identity fields and the action alone. -/
theorem parseFwdIE_frame (ip2int : IP → Nat) (upf : Upf) (f : Far) (e : FwdIE) :
    (parseFwdIE ip2int upf f e).FarID = f.FarID ∧
    (parseFwdIE ip2int upf f e).FseID = f.FseID ∧
    (parseFwdIE ip2int upf f e).FseidIP = f.FseidIP ∧
    (parseFwdIE ip2int upf f e).ApplyAction = f.ApplyAction := by
  unfold parseFwdIE
  dsimp only
  repeat' split
  all_goals simp

/-- The whole loop of `parseFAR` leaves the identity fields and the action alone. -/
theorem foldl_parseFwdIE_frame (ip2int : IP → Nat) (upf : Upf) (l : List FwdIE) (f : Far) :
    (l.foldl (parseFwdIE ip2int upf) f).FarID = f.FarID ∧
    (l.foldl (parseFwdIE ip2int upf) f).FseID = f.FseID ∧
    (l.foldl (parseFwdIE ip2int upf) f).FseidIP = f.FseidIP ∧
    (l.foldl (parseFwdIE ip2int upf) f).ApplyAction = f.ApplyAction := by
  induction l generalizing f with
  | nil => simp
  | cons e rest ih =>
    obtain ⟨h1, h2, h3, h4⟩ := ih (parseFwdIE ip2int upf f e)
    obtain ⟨g1, g2, g3, g4⟩ := parseFwdIE_frame ip2int upf f e
    simp only [List.foldl_cons]
    exact ⟨h1.trans g1, h2.trans g2, h3.trans g3, h4.trans g4⟩

/-- The tail of `parseFAR` returns no error and leaves the identity fields and the action
alone. -/
theorem parseFwdIEs_frame (ip2int : IP → Nat) (upf : Upf) (f : Far) (l : List FwdIE) :
    (parseFwdIEs ip2int upf f l).2 = none ∧
    (parseFwdIEs ip2int upf f l).1.FarID = f.FarID ∧
    (parseFwdIEs ip2int upf f l).1.FseID = f.FseID ∧
    (parseFwdIEs ip2int upf f l).1.ApplyAction = f.ApplyAction := by
  obtain ⟨h1, h2, -, h4⟩ := foldl_parseFwdIE_frame ip2int upf l { f with SendEndMarker := false }
  exact ⟨rfl, h1, h2, h4⟩

/-- C6: for an element that carries FAR-ID `id` and whose Apply-Action decodes to 0, and for
every operation, `parseFAR` returns the invalid-argument error and the record is the old
one with `FseID` and `FarID` overwritten; on a fresh record only these two are set. -/
theorem parseFAR_zero_action (ip2int : IP → Nat) (f : Far) (farIE : FarIE) (fseid : Nat)
    (upf : Upf) (op : operation) (id : Nat) (hid : farIE.FARID = .ok id)
    (ha : farIE.ApplyAction = .ok 0) :
    f.parseFAR ip2int farIE fseid upf op =
      ({ f with FseID := fseid, FarID := id }, some (ErrInvalidArgument "FAR Action" 0)) ∧
    (Far.parseFAR ip2int {} farIE fseid upf op).1 = { FarID := id, FseID := fseid } := by
  constructor <;> simp [Far.parseFAR, hid, ha]

theorem parseFAR_zero_action_witness :
    (zeroActionIE.FARID = .ok 1 ∧ zeroActionIE.ApplyAction = .ok 0) ∧
    (usedFar.parseFAR ip2intBE zeroActionIE 101 testUpf create =
      ({ usedFar with FseID := 101, FarID := 1 }, some (ErrInvalidArgument "FAR Action" 0)) ∧
     (Far.parseFAR ip2intBE {} zeroActionIE 101 testUpf create).1
       = { FarID := 1, FseID := 101 }) :=
  ⟨⟨rfl, rfl⟩, parseFAR_zero_action ip2intBE usedFar zeroActionIE 101 testUpf create 1 rfl rfl⟩

/-- C7: for an element whose FAR-ID lookup fails with `err`, and for every operation,
`parseFAR` returns `err` itself and the record is the old one with `FseID` overwritten; on
a fresh record only `FseID` is set. -/
theorem parseFAR_missing_farID (ip2int : IP → Nat) (f : Far) (farIE : FarIE) (fseid : Nat)
    (upf : Upf) (op : operation) (err : Error) (hid : farIE.FARID = .error err) :
    f.parseFAR ip2int farIE fseid upf op = ({ f with FseID := fseid }, some err) ∧
    (Far.parseFAR ip2int {} farIE fseid upf op).1 = { FseID := fseid } := by
  constructor <;> simp [Far.parseFAR, hid]

theorem parseFAR_missing_farID_witness :
    noFarIDIE.FARID = .error (.decode 4) ∧
    (usedFar.parseFAR ip2intBE noFarIDIE 101 testUpf update =
      ({ usedFar with FseID := 101 }, some (.decode 4)) ∧
     (Far.parseFAR ip2intBE {} noFarIDIE 101 testUpf update).1 = { FseID := 101 }) :=
  ⟨rfl, parseFAR_missing_farID ip2intBE usedFar noFarIDIE 101 testUpf update (.decode 4) rfl⟩

/-- C9: if `parseFAR` returns no error, the element carries a FAR-ID and a non-zero
Apply-Action, and the record has that action, that FAR-ID and the given `fseid`. -/
theorem parseFAR_success (ip2int : IP → Nat) (f : Far) (farIE : FarIE) (fseid : Nat)
    (upf : Upf) (op : operation) (h : (f.parseFAR ip2int farIE fseid upf op).2 = none) :
    ∃ id a, farIE.FARID = .ok id ∧ farIE.ApplyAction = .ok a ∧ a ≠ 0 ∧
      (f.parseFAR ip2int farIE fseid upf op).1.ApplyAction = a ∧
      (f.parseFAR ip2int farIE fseid upf op).1.ApplyAction ≠ 0 ∧
      (f.parseFAR ip2int farIE fseid upf op).1.FarID = id ∧
      (f.parseFAR ip2int farIE fseid upf op).1.FseID = fseid := by
  cases hid : farIE.FARID with
  | error err => simp [Far.parseFAR, hid] at h
  | ok id =>
    cases ha : farIE.ApplyAction with
    | error err => simp [Far.parseFAR, hid, ha] at h
    | ok a =>
      by_cases hz : a = 0
      · simp [Far.parseFAR, hid, ha, hz] at h
      · refine ⟨id, a, rfl, rfl, hz, ?_⟩
        have key : ∀ l : List FwdIE,
            (parseFwdIEs ip2int upf
                { f with FseID := fseid, FarID := id, ApplyAction := a } l).1.ApplyAction = a ∧
            (parseFwdIEs ip2int upf
                { f with FseID := fseid, FarID := id, ApplyAction := a } l).1.ApplyAction ≠ 0 ∧
            (parseFwdIEs ip2int upf
                { f with FseID := fseid, FarID := id, ApplyAction := a } l).1.FarID = id ∧
            (parseFwdIEs ip2int upf
                { f with FseID := fseid, FarID := id, ApplyAction := a } l).1.FseID = fseid := by
          intro l
          obtain ⟨-, h2, h3, h4⟩ :=
            parseFwdIEs_frame ip2int upf { f with FseID := fseid, FarID := id, ApplyAction := a } l
          exact ⟨h4, by rw [h4]; exact hz, h2, h3⟩
        by_cases hc : op = create
        · by_cases hfw : (a &&& ActionForward) ≠ 0
          · cases hl : farIE.ForwardingParameters with
            | error err => simp [Far.parseFAR, hid, ha, hz, hc, hfw, hl] at h
            | ok l =>
              simp only [Far.parseFAR, hid, ha, hz, hc, hfw, hl, if_true, if_false, ne_eq,
                not_false_eq_true]
              exact key l
          · simp only [Far.parseFAR, hid, ha, hz, hc, hfw, if_true, if_false]
            exact key []
        · by_cases hu : op = update
          · have hcu : ¬ update = create := by decide
            cases hl : farIE.UpdateForwardingParameters with
            | error err => simp [Far.parseFAR, hid, ha, hz, hu, hcu, hl] at h
            | ok l =>
              simp only [Far.parseFAR, hid, ha, hz, hu, hcu, hl, if_true, if_false]
              exact key l
          · simp [Far.parseFAR, hid, ha, hz, hc, hu] at h

theorem parseFAR_success_witness :
    (usedFar.parseFAR ip2intBE updateForwardIE 100 testUpf update).2 = none ∧
    ∃ id a, updateForwardIE.FARID = .ok id ∧ updateForwardIE.ApplyAction = .ok a ∧ a ≠ 0 ∧
      (usedFar.parseFAR ip2intBE updateForwardIE 100 testUpf update).1.ApplyAction = a ∧
      (usedFar.parseFAR ip2intBE updateForwardIE 100 testUpf update).1.ApplyAction ≠ 0 ∧
      (usedFar.parseFAR ip2intBE updateForwardIE 100 testUpf update).1.FarID = id ∧
      (usedFar.parseFAR ip2intBE updateForwardIE 100 testUpf update).1.FseID = 100 :=
  ⟨by decide, parseFAR_success ip2intBE usedFar updateForwardIE 100 testUpf update (by decide)⟩

/-- A loop iteration on a sub-element that is not a well-formed Destination-Interface
leaves `TunnelIP4Src` alone. -/
theorem parseFwdIE_src_kept (ip2int : IP → Nat) (upf : Upf) (f : Far) (e : FwdIE)
    (h : e.ieType = ieDestinationInterface → e.DestinationInterface.2 ≠ none) :
    (parseFwdIE ip2int upf f e).TunnelIP4Src = f.TunnelIP4Src := by
  unfold parseFwdIE
  dsimp only
  by_cases h1 : e.ieType = ieOuterHeaderCreation
  · rw [if_pos h1]; split <;> rfl
  · rw [if_neg h1]
    by_cases h2 : e.ieType = ieDestinationInterface
    · rw [if_pos h2]
      cases hd : e.DestinationInterface.2 with
      | none => exact absurd hd (h h2)
      | some err => rfl
    · rw [if_neg h2]
      repeat' split
      all_goals rfl

/-- A loop iteration on a sub-element that is not a Destination-Interface leaves `DstIntf`
alone. -/
theorem parseFwdIE_dstIntf_kept (ip2int : IP → Nat) (upf : Upf) (f : Far) (e : FwdIE)
    (h : e.ieType ≠ ieDestinationInterface) :
    (parseFwdIE ip2int upf f e).DstIntf = f.DstIntf := by
  unfold parseFwdIE
  dsimp only
  rw [if_neg h]
  repeat' split
  all_goals rfl

/-- A loop iteration on a well-formed Destination-Interface with value `x`. -/
theorem parseFwdIE_dstIntf_ok (ip2int : IP → Nat) (upf : Upf) (f : Far) (e : FwdIE) (x : Nat)
    (hty : e.ieType = ieDestinationInterface) (hd : e.DestinationInterface = (x, none)) :
    (parseFwdIE ip2int upf f e).DstIntf = x ∧
    (x = DstInterfaceAccess → (parseFwdIE ip2int upf f e).TunnelIP4Src = ip2int upf.AccessIP) ∧
    (x = DstInterfaceCore → (parseFwdIE ip2int upf f e).TunnelIP4Src = ip2int upf.CoreIP) := by
  have hne : ¬ e.ieType = ieOuterHeaderCreation := by rw [hty]; decide
  unfold parseFwdIE
  dsimp only
  rw [if_neg hne, if_pos hty, hd]
  dsimp only
  refine ⟨by repeat' split
             all_goals rfl, ?_, ?_⟩
  · intro hx; rw [if_pos hx]
  · intro hx
    have hna : ¬ x = DstInterfaceAccess := by rw [hx]; decide
    rw [if_neg hna, if_pos hx]

/-- The last well-formed Destination-Interface of a group fixes `TunnelIP4Src`; it also
fixes `DstIntf` when no Destination-Interface sub-element at all comes after it. -/
theorem foldl_parseFwdIE_last_dstIntf (ip2int : IP → Nat) (upf : Upf) (f : Far)
    (pre post : List FwdIE) (d : FwdIE) (x : Nat)
    (hty : d.ieType = ieDestinationInterface) (hd : d.DestinationInterface = (x, none))
    (hpost : ∀ e ∈ post, e.ieType = ieDestinationInterface → e.DestinationInterface.2 ≠ none) :
    (x = DstInterfaceAccess →
      ((pre ++ d :: post).foldl (parseFwdIE ip2int upf) f).TunnelIP4Src = ip2int upf.AccessIP) ∧
    (x = DstInterfaceCore →
      ((pre ++ d :: post).foldl (parseFwdIE ip2int upf) f).TunnelIP4Src = ip2int upf.CoreIP) ∧
    ((∀ e ∈ post, e.ieType ≠ ieDestinationInterface) →
      ((pre ++ d :: post).foldl (parseFwdIE ip2int upf) f).DstIntf = x) := by
  have hsrc : ∀ (l : List FwdIE) (g : Far),
      (∀ e ∈ l, e.ieType = ieDestinationInterface → e.DestinationInterface.2 ≠ none) →
      (l.foldl (parseFwdIE ip2int upf) g).TunnelIP4Src = g.TunnelIP4Src := by
    intro l
    induction l with
    | nil => intro g _; rfl
    | cons e rest ih =>
      intro g hl
      rw [List.foldl_cons, ih _ (fun u hu => hl u (List.mem_cons_of_mem e hu))]
      exact parseFwdIE_src_kept ip2int upf g e (hl e (List.mem_cons_self e rest))
  have hdst : ∀ (l : List FwdIE) (g : Far),
      (∀ e ∈ l, e.ieType ≠ ieDestinationInterface) →
      (l.foldl (parseFwdIE ip2int upf) g).DstIntf = g.DstIntf := by
    intro l
    induction l with
    | nil => intro g _; rfl
    | cons e rest ih =>
      intro g hl
      rw [List.foldl_cons, ih _ (fun u hu => hl u (List.mem_cons_of_mem e hu))]
      exact parseFwdIE_dstIntf_kept ip2int upf g e (hl e (List.mem_cons_self e rest))
  obtain ⟨h1, h2, h3⟩ :=
    parseFwdIE_dstIntf_ok ip2int upf (pre.foldl (parseFwdIE ip2int upf) f) d x hty hd
  rw [List.foldl_append, List.foldl_cons]
  refine ⟨fun hx => ?_, fun hx => ?_, fun hno => ?_⟩
  · rw [hsrc post _ hpost]; exact h2 hx
  · rw [hsrc post _ hpost]; exact h3 hx
  · rw [hdst post _ hno]; exact h1

/-- C10 at the failing input: an Update-FAR whose group is a well-formed
Destination-Interface with the core value followed by a Destination-Interface with an
empty payload. The parse succeeds and `TunnelIP4Src` is the core address, but `DstIntf` is
0, the value the accessor returned together with its error, not the decoded core value 1. -/
theorem parseFAR_dstIntf_after_malformed :
    coreThenMalformedIE.UpdateForwardingParameters
      = .ok [dstIntfIE DstInterfaceCore, dstIntfMalformedIE] ∧
    (Far.parseFAR ip2intBE {} coreThenMalformedIE 100 testUpf update).2 = none ∧
    (Far.parseFAR ip2intBE {} coreThenMalformedIE 100 testUpf update).1.TunnelIP4Src
      = ip2intBE testUpf.CoreIP ∧
    (Far.parseFAR ip2intBE {} coreThenMalformedIE 100 testUpf update).1.DstIntf = 0 ∧
    (Far.parseFAR ip2intBE {} coreThenMalformedIE 100 testUpf update).1.DstIntf
      ≠ DstInterfaceCore :=
  ⟨rfl, by decide, by decide, by decide, by decide⟩

/-! ## The FAR parser: which group is read -/

/-- Every call of `parseFAR` either returns an error, with the eight forwarding fields of
the record as they were, or passes the three checks and runs the sub-element loop on the
group `l` that the operation selects (the empty group for a create without the Forward
bit). -/
theorem parseFAR_cases (ip2int : IP → Nat) (f : Far) (farIE : FarIE) (fseid : Nat)
    (upf : Upf) (op : operation) :
    ((f.parseFAR ip2int farIE fseid upf op).2 ≠ none ∧
      (f.parseFAR ip2int farIE fseid upf op).1.FseidIP = f.FseidIP ∧
      (f.parseFAR ip2int farIE fseid upf op).1.DstIntf = f.DstIntf ∧
      (f.parseFAR ip2int farIE fseid upf op).1.SendEndMarker = f.SendEndMarker ∧
      (f.parseFAR ip2int farIE fseid upf op).1.TunnelType = f.TunnelType ∧
      (f.parseFAR ip2int farIE fseid upf op).1.TunnelIP4Src = f.TunnelIP4Src ∧
      (f.parseFAR ip2int farIE fseid upf op).1.TunnelIP4Dst = f.TunnelIP4Dst ∧
      (f.parseFAR ip2int farIE fseid upf op).1.TunnelTEID = f.TunnelTEID ∧
      (f.parseFAR ip2int farIE fseid upf op).1.TunnelPort = f.TunnelPort) ∨
    (∃ id a l, farIE.FARID = .ok id ∧ farIE.ApplyAction = .ok a ∧ a ≠ 0 ∧
      ((op = update ∧ farIE.UpdateForwardingParameters = .ok l) ∨
       (op = create ∧ (a &&& ActionForward) ≠ 0 ∧ farIE.ForwardingParameters = .ok l) ∨
       (op = create ∧ (a &&& ActionForward) = 0 ∧ l = [])) ∧
      f.parseFAR ip2int farIE fseid upf op =
        parseFwdIEs ip2int upf { f with FseID := fseid, FarID := id, ApplyAction := a } l) := by
  have hcu : ¬ update = create := by decide
  cases hid : farIE.FARID with
  | error err => left; simp [Far.parseFAR, hid]
  | ok id =>
    cases ha : farIE.ApplyAction with
    | error err => left; simp [Far.parseFAR, hid, ha]
    | ok a =>
      by_cases hz : a = 0
      · left; simp [Far.parseFAR, hid, ha, hz]
      · by_cases hc : op = create
        · by_cases hfw : (a &&& ActionForward) ≠ 0
          · cases hl : farIE.ForwardingParameters with
            | error err => left; simp [Far.parseFAR, hid, ha, hz, hc, hfw, hl]
            | ok l =>
              right
              refine ⟨id, a, l, rfl, rfl, hz, Or.inr (Or.inl ⟨hc, hfw, rfl⟩), ?_⟩
              simp only [Far.parseFAR, hid, ha, hz, hc, hfw, hl, if_true, if_false, ne_eq,
                not_false_eq_true]
          · right
            refine ⟨id, a, [], rfl, rfl, hz, Or.inr (Or.inr ⟨hc, not_not.mp hfw, rfl⟩), ?_⟩
            simp only [Far.parseFAR, hid, ha, hz, hc, hfw, if_true, if_false]
        · by_cases hu : op = update
          · cases hl : farIE.UpdateForwardingParameters with
            | error err => left; simp [Far.parseFAR, hid, ha, hz, hu, hcu, hl]
            | ok l =>
              right
              refine ⟨id, a, l, rfl, rfl, hz, Or.inl ⟨hu, rfl⟩, ?_⟩
              simp only [Far.parseFAR, hid, ha, hz, hu, hcu, hl, if_true, if_false]
          · left; simp [Far.parseFAR, hid, ha, hz, hc, hu]

/-- With FAR-ID `id`, a non-zero action `a` and a readable group `l` selected by the
operation, `parseFAR` is the sub-element loop run on `l`. -/
theorem parseFAR_reads_group (ip2int : IP → Nat) (f : Far) (farIE : FarIE) (fseid : Nat)
    (upf : Upf) (op : operation) (id a : Nat) (l : List FwdIE)
    (hid : farIE.FARID = .ok id) (ha : farIE.ApplyAction = .ok a) (hne : a ≠ 0)
    (hgrp : (op = update ∧ farIE.UpdateForwardingParameters = .ok l) ∨
      (op = create ∧ (a &&& ActionForward) ≠ 0 ∧ farIE.ForwardingParameters = .ok l)) :
    f.parseFAR ip2int farIE fseid upf op =
      parseFwdIEs ip2int upf { f with FseID := fseid, FarID := id, ApplyAction := a } l := by
  have hcu : ¬ update = create := by decide
  rcases hgrp with ⟨hu, hl⟩ | ⟨hc, hfw, hl⟩
  · simp only [Far.parseFAR, hid, ha, hne, hu, hcu, hl, if_true, if_false]
  · simp only [Far.parseFAR, hid, ha, hne, hc, hfw, hl, if_true, if_false, ne_eq,
      not_false_eq_true]

/-- C11: for operation create and an element with FAR-ID `id` and a non-zero action `a`
whose Forward bit is clear, `parseFAR` succeeds without reading any group: the record is
the old one with `FseID`, `FarID` and `ApplyAction` overwritten and `SendEndMarker` false;
the Drop FAR 999 of the test, parsed into a fresh record, gives exactly
`{FarID: 999, FseID, ApplyAction: Drop}`. -/
theorem parseFAR_create_no_forward (ip2int : IP → Nat) (f : Far) (farIE : FarIE)
    (fseid : Nat) (upf : Upf) (id a : Nat) (hid : farIE.FARID = .ok id)
    (ha : farIE.ApplyAction = .ok a) (hne : a ≠ 0) (hfw : (a &&& ActionForward) = 0) :
    f.parseFAR ip2int farIE fseid upf create =
      ({ f with FseID := fseid, FarID := id, ApplyAction := a, SendEndMarker := false },
        none) ∧
    Far.parseFAR ip2int {} dropIE fseid upf create =
      ({ FarID := 999, FseID := fseid, ApplyAction := ActionDrop }, none) := by
  constructor
  · simp [Far.parseFAR, hid, ha, hne, hfw, parseFwdIEs]
  · simp [Far.parseFAR, dropIE, parseFwdIEs, ActionDrop, ActionForward, create]

theorem parseFAR_create_no_forward_witness :
    (dropIE.FARID = .ok 999 ∧ dropIE.ApplyAction = .ok 1 ∧ (1 : Nat) ≠ 0 ∧
      ((1 : Nat) &&& ActionForward) = 0) ∧
    (usedFar.parseFAR ip2intBE dropIE 100 testUpf create =
      ({ usedFar with FseID := 100, FarID := 999, ApplyAction := 1, SendEndMarker := false },
        none) ∧
     Far.parseFAR ip2intBE {} dropIE 100 testUpf create =
      ({ FarID := 999, FseID := 100, ApplyAction := ActionDrop }, none)) :=
  ⟨⟨rfl, rfl, by decide, by decide⟩,
   parseFAR_create_no_forward ip2intBE usedFar dropIE 100 testUpf 999 1 rfl rfl (by decide)
     (by decide)⟩

/-- A loop iteration on a sub-element that is not a well-formed Outer-Header-Creation
leaves the four tunnel fields alone. -/
theorem parseFwdIE_tunnel_kept (ip2int : IP → Nat) (upf : Upf) (f : Far) (e : FwdIE)
    (h : e.ieType = ieOuterHeaderCreation → ∀ o, e.OuterHeaderCreation ≠ .ok o) :
    (parseFwdIE ip2int upf f e).TunnelTEID = f.TunnelTEID ∧
    (parseFwdIE ip2int upf f e).TunnelIP4Dst = f.TunnelIP4Dst ∧
    (parseFwdIE ip2int upf f e).TunnelType = f.TunnelType ∧
    (parseFwdIE ip2int upf f e).TunnelPort = f.TunnelPort := by
  unfold parseFwdIE
  dsimp only
  by_cases h1 : e.ieType = ieOuterHeaderCreation
  · rw [if_pos h1]
    cases ho : e.OuterHeaderCreation with
    | error err => simp
    | ok o => exact absurd ho (h h1 o)
  · rw [if_neg h1]
    repeat' split
    all_goals simp

/-- A loop iteration on a well-formed Outer-Header-Creation sets the four tunnel fields. -/
theorem parseFwdIE_ohc_ok (ip2int : IP → Nat) (upf : Upf) (f : Far) (e : FwdIE)
    (o : OuterHeaderCreationFields) (hty : e.ieType = ieOuterHeaderCreation)
    (ho : e.OuterHeaderCreation = .ok o) :
    (parseFwdIE ip2int upf f e).TunnelTEID = o.TEID ∧
    (parseFwdIE ip2int upf f e).TunnelIP4Dst = ip2int o.IPv4Address ∧
    (parseFwdIE ip2int upf f e).TunnelType = 1 ∧
    (parseFwdIE ip2int upf f e).TunnelPort = 2152 := by
  unfold parseFwdIE
  rw [if_pos hty, ho]
  exact ⟨rfl, rfl, rfl, rfl⟩

/-- The loop run on sub-elements none of which is a well-formed Outer-Header-Creation
leaves the four tunnel fields alone. -/
theorem foldl_parseFwdIE_tunnel_kept (ip2int : IP → Nat) (upf : Upf) (l : List FwdIE)
    (f : Far)
    (h : ∀ e ∈ l, e.ieType = ieOuterHeaderCreation → ∀ o, e.OuterHeaderCreation ≠ .ok o) :
    (l.foldl (parseFwdIE ip2int upf) f).TunnelTEID = f.TunnelTEID ∧
    (l.foldl (parseFwdIE ip2int upf) f).TunnelIP4Dst = f.TunnelIP4Dst ∧
    (l.foldl (parseFwdIE ip2int upf) f).TunnelType = f.TunnelType ∧
    (l.foldl (parseFwdIE ip2int upf) f).TunnelPort = f.TunnelPort := by
  induction l generalizing f with
  | nil => exact ⟨rfl, rfl, rfl, rfl⟩
  | cons e rest ih =>
    obtain ⟨a1, a2, a3, a4⟩ :=
      ih (parseFwdIE ip2int upf f e) (fun u hu => h u (List.mem_cons_of_mem e hu))
    obtain ⟨b1, b2, b3, b4⟩ :=
      parseFwdIE_tunnel_kept ip2int upf f e (h e (List.mem_cons_self e rest))
    rw [List.foldl_cons]
    exact ⟨a1.trans b1, a2.trans b2, a3.trans b3, a4.trans b4⟩

/-- C12: when `parseFAR` reads a group `pre ++ d :: post` in which `d` is the last
well-formed Outer-Header-Creation, it returns no error and the record has `TunnelTEID` equal
to the TEID of `d`, `TunnelIP4Dst = ip2int` of its IPv4 address, `TunnelType = 1` and
`TunnelPort = 2152`; the update scenario of the test yields the expected record. -/
theorem parseFAR_outerHeaderCreation (ip2int : IP → Nat) (f : Far) (farIE : FarIE)
    (fseid : Nat) (upf : Upf) (op : operation) (id a : Nat) (pre post : List FwdIE)
    (d : FwdIE) (o : OuterHeaderCreationFields)
    (hid : farIE.FARID = .ok id) (ha : farIE.ApplyAction = .ok a) (hne : a ≠ 0)
    (hgrp : (op = update ∧ farIE.UpdateForwardingParameters = .ok (pre ++ d :: post)) ∨
      (op = create ∧ (a &&& ActionForward) ≠ 0 ∧
        farIE.ForwardingParameters = .ok (pre ++ d :: post)))
    (hty : d.ieType = ieOuterHeaderCreation) (ho : d.OuterHeaderCreation = .ok o)
    (hpost : ∀ e ∈ post, e.ieType = ieOuterHeaderCreation →
      ∀ o2, e.OuterHeaderCreation ≠ .ok o2) :
    ((f.parseFAR ip2int farIE fseid upf op).2 = none ∧
      (f.parseFAR ip2int farIE fseid upf op).1.TunnelTEID = o.TEID ∧
      (f.parseFAR ip2int farIE fseid upf op).1.TunnelIP4Dst = ip2int o.IPv4Address ∧
      (f.parseFAR ip2int farIE fseid upf op).1.TunnelType = 1 ∧
      (f.parseFAR ip2int farIE fseid upf op).1.TunnelPort = 2152) ∧
    Far.parseFAR ip2int {} updateForwardIE 100 testUpf update =
      ({ FarID := 1, FseID := 100, ApplyAction := ActionForward, DstIntf := 1,
         TunnelTEID := 100, TunnelType := 1, TunnelIP4Src := ip2int [10, 0, 10, 1],
         TunnelIP4Dst := ip2int [10, 0, 1, 1], TunnelPort := 2152 }, none) := by
  refine ⟨?_, rfl⟩
  rw [parseFAR_reads_group ip2int f farIE fseid upf op id a _ hid ha hne hgrp]
  simp only [parseFwdIEs, List.foldl_append, List.foldl_cons]
  obtain ⟨a1, a2, a3, a4⟩ := foldl_parseFwdIE_tunnel_kept ip2int upf post
    (parseFwdIE ip2int upf (pre.foldl (parseFwdIE ip2int upf)
      { f with FseID := fseid, FarID := id, ApplyAction := a, SendEndMarker := false }) d)
    hpost
  obtain ⟨b1, b2, b3, b4⟩ := parseFwdIE_ohc_ok ip2int upf (pre.foldl (parseFwdIE ip2int upf)
      { f with FseID := fseid, FarID := id, ApplyAction := a, SendEndMarker := false }) d o
    hty ho
  exact ⟨trivial, a1.trans b1, a2.trans b2, a3.trans b3, a4.trans b4⟩

theorem parseFAR_outerHeaderCreation_witness :
    (updateForwardIE.FARID = .ok 1 ∧ updateForwardIE.ApplyAction = .ok 2 ∧ (2 : Nat) ≠ 0 ∧
      updateForwardIE.UpdateForwardingParameters
        = .ok ([dstIntfIE 1] ++ outerHeaderIE 100 [10, 0, 1, 1] :: []) ∧
      (outerHeaderIE 100 [10, 0, 1, 1]).ieType = ieOuterHeaderCreation ∧
      (outerHeaderIE 100 [10, 0, 1, 1]).OuterHeaderCreation
        = .ok { TEID := 100, IPv4Address := [10, 0, 1, 1] }) ∧
    (((usedFar.parseFAR ip2intBE updateForwardIE 100 testUpf update).2 = none ∧
      (usedFar.parseFAR ip2intBE updateForwardIE 100 testUpf update).1.TunnelTEID = 100 ∧
      (usedFar.parseFAR ip2intBE updateForwardIE 100 testUpf update).1.TunnelIP4Dst
        = ip2intBE [10, 0, 1, 1] ∧
      (usedFar.parseFAR ip2intBE updateForwardIE 100 testUpf update).1.TunnelType = 1 ∧
      (usedFar.parseFAR ip2intBE updateForwardIE 100 testUpf update).1.TunnelPort = 2152) ∧
    Far.parseFAR ip2intBE {} updateForwardIE 100 testUpf update =
      ({ FarID := 1, FseID := 100, ApplyAction := ActionForward, DstIntf := 1,
         TunnelTEID := 100, TunnelType := 1, TunnelIP4Src := ip2intBE [10, 0, 10, 1],
         TunnelIP4Dst := ip2intBE [10, 0, 1, 1], TunnelPort := 2152 }, none)) :=
  ⟨⟨rfl, rfl, by decide, rfl, rfl, rfl⟩,
   parseFAR_outerHeaderCreation ip2intBE usedFar updateForwardIE 100 testUpf update 1 2
     [dstIntfIE 1] [] (outerHeaderIE 100 [10, 0, 1, 1])
     { TEID := 100, IPv4Address := [10, 0, 1, 1] } rfl rfl (by decide) (Or.inl ⟨rfl, rfl⟩)
     rfl rfl (fun e he => absurd he (List.not_mem_nil e))⟩

/-- C13, as the spec states it, fails: with an operation that is neither create nor update
(the value 2) and an element without FAR-ID, `parseFAR` returns the error of the FAR-ID
lookup; with FAR-ID 1 and Apply-Action 0 it returns the invalid-argument error. -/
theorem parseFAR_invalid_operation_counterexample :
    (2 : operation) ≠ create ∧ (2 : operation) ≠ update ∧
    (Far.parseFAR ip2intBE {} noFarIDIE 100 testUpf 2).2 = some (.decode 4) ∧
    (Far.parseFAR ip2intBE {} noFarIDIE 100 testUpf 2).2 ≠ some (ErrInvalidOperation 2) ∧
    (Far.parseFAR ip2intBE {} zeroActionIE 100 testUpf 2).2
      = some (ErrInvalidArgument "FAR Action" 0) := by
  decide

/-- C13, amended: for every operation value other than create and update, and every element
with a present FAR-ID and a non-zero Apply-Action, `parseFAR` returns the
invalid-operation error (the three checks on the element come before the operation is
looked at). -/
theorem parseFAR_invalid_operation (ip2int : IP → Nat) (f : Far) (farIE : FarIE)
    (fseid : Nat) (upf : Upf) (op : operation) (id a : Nat)
    (hc : op ≠ create) (hu : op ≠ update)
    (hid : farIE.FARID = .ok id) (ha : farIE.ApplyAction = .ok a) (hne : a ≠ 0) :
    (f.parseFAR ip2int farIE fseid upf op).2 = some (ErrInvalidOperation op) := by
  simp [Far.parseFAR, hid, ha, hne, hc, hu]

theorem parseFAR_invalid_operation_witness :
    ((2 : operation) ≠ create ∧ (2 : operation) ≠ update ∧ dropIE.FARID = .ok 999 ∧
      dropIE.ApplyAction = .ok 1 ∧ (1 : Nat) ≠ 0) ∧
    (usedFar.parseFAR ip2intBE dropIE 100 testUpf 2).2 = some (ErrInvalidOperation 2) :=
  ⟨⟨by decide, by decide, rfl, rfl, by decide⟩,
   parseFAR_invalid_operation ip2intBE usedFar dropIE 100 testUpf 2 999 1 (by decide)
     (by decide) rfl rfl (by decide)⟩

/-- A loop iteration sets `SendEndMarker` exactly on a well-formed PFCP-SM-Request-Flags
with the second bit set, and never clears it. -/
theorem parseFwdIE_sendEndMarker (ip2int : IP → Nat) (upf : Upf) (f : Far) (e : FwdIE) :
    (parseFwdIE ip2int upf f e).SendEndMarker = true ↔
      f.SendEndMarker = true ∨
      (e.ieType = iePFCPSMReqFlags ∧ ∃ fl, e.PFCPSMReqFlags = .ok fl ∧ has2ndBit fl = true) := by
  have h8449 : ¬ iePFCPSMReqFlags = ieOuterHeaderCreation := by decide
  have h4249 : ¬ iePFCPSMReqFlags = ieDestinationInterface := by decide
  unfold parseFwdIE
  dsimp only
  by_cases h1 : e.ieType = ieOuterHeaderCreation
  · have h3 : ¬ e.ieType = iePFCPSMReqFlags := by rw [h1]; decide
    rw [if_pos h1]
    split <;> simp [h3]
  · rw [if_neg h1]
    by_cases h2 : e.ieType = ieDestinationInterface
    · have h3 : ¬ e.ieType = iePFCPSMReqFlags := by rw [h2]; decide
      rw [if_pos h2]
      repeat' split
      all_goals simp [h3]
    · rw [if_neg h2]
      by_cases h3 : e.ieType = iePFCPSMReqFlags
      · rw [if_pos h3]
        cases hfl : e.PFCPSMReqFlags with
        | error err => simp
        | ok fl =>
          by_cases hb : has2ndBit fl = true
          · simp [hb, h3]
          · simp [hb, h3]
      · rw [if_neg h3]; simp [h3]

/-- The loop leaves `SendEndMarker` true exactly when it was true before or the group holds
a well-formed PFCP-SM-Request-Flags with the second bit set. -/
theorem foldl_parseFwdIE_sendEndMarker (ip2int : IP → Nat) (upf : Upf) (l : List FwdIE)
    (f : Far) :
    (l.foldl (parseFwdIE ip2int upf) f).SendEndMarker = true ↔
      f.SendEndMarker = true ∨
      ∃ e ∈ l, e.ieType = iePFCPSMReqFlags ∧
        ∃ fl, e.PFCPSMReqFlags = .ok fl ∧ has2ndBit fl = true := by
  induction l generalizing f with
  | nil => simp
  | cons e rest ih =>
    rw [List.foldl_cons, ih, parseFwdIE_sendEndMarker]
    constructor
    · rintro ((h | h) | ⟨u, hu, h⟩)
      · exact Or.inl h
      · exact Or.inr ⟨e, List.mem_cons_self e rest, h⟩
      · exact Or.inr ⟨u, List.mem_cons_of_mem e hu, h⟩
    · rintro (h | ⟨u, hu, h⟩)
      · exact Or.inl (Or.inl h)
      · rcases List.mem_cons.mp hu with rfl | hmem
        · exact Or.inl (Or.inr h)
        · exact Or.inr ⟨u, hmem, h⟩

/-- C17, as the spec states it, fails: a record whose `SendEndMarker` was true, parsed
against an element with Apply-Action 0, comes back with the invalid-argument error and
`SendEndMarker` still true, although no group was read. -/
theorem parseFAR_sendEndMarker_counterexample :
    usedFar.SendEndMarker = true ∧
    (usedFar.parseFAR ip2intBE zeroActionIE 101 testUpf create).2
      = some (ErrInvalidArgument "FAR Action" 0) ∧
    (usedFar.parseFAR ip2intBE zeroActionIE 101 testUpf create).1.SendEndMarker = true := by
  decide

/-- C17, amended: when `parseFAR` returns no error, `SendEndMarker` is true exactly when the
group read in this call holds a PFCP-SM-Request-Flags sub-element that decodes with its
second bit set, whatever the record held before; when `parseFAR` returns an error,
`SendEndMarker` keeps the value it had before the call. -/
theorem parseFAR_sendEndMarker (ip2int : IP → Nat) (f : Far) (farIE : FarIE) (fseid : Nat)
    (upf : Upf) (op : operation) :
    ((f.parseFAR ip2int farIE fseid upf op).2 = none →
      ((f.parseFAR ip2int farIE fseid upf op).1.SendEndMarker = true ↔
        ∃ l, ((op = update ∧ farIE.UpdateForwardingParameters = .ok l) ∨
              (op = create ∧ farIE.ForwardingParameters = .ok l ∧
                ∃ a, farIE.ApplyAction = .ok a ∧ (a &&& ActionForward) ≠ 0)) ∧
          ∃ e ∈ l, e.ieType = iePFCPSMReqFlags ∧
            ∃ fl, e.PFCPSMReqFlags = .ok fl ∧ has2ndBit fl = true)) ∧
    ((f.parseFAR ip2int farIE fseid upf op).2 ≠ none →
      (f.parseFAR ip2int farIE fseid upf op).1.SendEndMarker = f.SendEndMarker) := by
  have hcu : ¬ update = create := by decide
  rcases parseFAR_cases ip2int f farIE fseid upf op with
    ⟨herr, -, -, hsem, -⟩ | ⟨id, a, l, hid, ha, hne, hsel, hres⟩
  · exact ⟨fun h => absurd h herr, fun _ => hsem⟩
  · refine ⟨fun _ => ?_, fun h => absurd (by rw [hres]; rfl) h⟩
    rw [hres]
    simp only [parseFwdIEs]
    rw [foldl_parseFwdIE_sendEndMarker]
    constructor
    · rintro (h | hex)
      · simp at h
      · rcases hsel with ⟨hu, hl⟩ | ⟨hc, hfw, hl⟩ | ⟨hc, hfw, hl⟩
        · exact ⟨l, Or.inl ⟨hu, hl⟩, hex⟩
        · exact ⟨l, Or.inr ⟨hc, hl, a, ha, hfw⟩, hex⟩
        · subst hl
          obtain ⟨e, he, -⟩ := hex
          exact absurd he (List.not_mem_nil e)
    · rintro ⟨l2, hsel2, hex⟩
      right
      have hl2 : l2 = l := by
        rcases hsel with ⟨hu, hl⟩ | ⟨hc, hfw, hl⟩ | ⟨hc, hfw, hl⟩
        · rcases hsel2 with ⟨-, hl2⟩ | ⟨hc2, -, -⟩
          · rw [hl] at hl2; injection hl2 with h; exact h.symm
          · rw [hu] at hc2; exact absurd hc2 hcu
        · rcases hsel2 with ⟨hu2, -⟩ | ⟨-, hl2, -⟩
          · rw [hc] at hu2; exact absurd hu2.symm hcu
          · rw [hl] at hl2; injection hl2 with h; exact h.symm
        · rcases hsel2 with ⟨hu2, -⟩ | ⟨-, -, a2, ha2, hfw2⟩
          · rw [hc] at hu2; exact absurd hu2.symm hcu
          · rw [ha] at ha2; injection ha2 with h; subst h; exact absurd hfw hfw2
      rw [← hl2]; exact hex

/-- C18 at the failing input: the group of `coreThenMalformedIE` is the group of
`coreOnlyIE` with a Destination-Interface of empty payload added at the end. Both parses
return no error and give the same `TunnelIP4Src`, but the first record has `DstIntf = 0`
where the second, and the record before the malformed sub-element was reached, has 1. -/
theorem parseFAR_malformed_dstIntf_overwrites :
    coreThenMalformedIE.UpdateForwardingParameters
      = .ok [dstIntfIE DstInterfaceCore, dstIntfMalformedIE] ∧
    coreOnlyIE.UpdateForwardingParameters = .ok [dstIntfIE DstInterfaceCore] ∧
    dstIntfMalformedIE.DestinationInterface.2 ≠ none ∧
    (Far.parseFAR ip2intBE {} coreThenMalformedIE 100 testUpf update).2 = none ∧
    (Far.parseFAR ip2intBE {} coreOnlyIE 100 testUpf update).2 = none ∧
    (Far.parseFAR ip2intBE {} coreThenMalformedIE 100 testUpf update).1.TunnelIP4Src
      = (Far.parseFAR ip2intBE {} coreOnlyIE 100 testUpf update).1.TunnelIP4Src ∧
    (Far.parseFAR ip2intBE {} coreOnlyIE 100 testUpf update).1.DstIntf = 1 ∧
    (Far.parseFAR ip2intBE {} coreThenMalformedIE 100 testUpf update).1.DstIntf = 0 ∧
    (Far.parseFAR ip2intBE {} coreThenMalformedIE 100 testUpf update).1
      ≠ (Far.parseFAR ip2intBE {} coreOnlyIE 100 testUpf update).1 :=
  ⟨rfl, rfl, by decide, by decide, by decide, by decide, by decide, by decide, by decide⟩

/-- A loop iteration on a malformed Outer-Header-Creation or a malformed
PFCP-SM-Request-Flags returns the record as it was. -/
theorem parseFwdIE_malformed_skip (ip2int : IP → Nat) (upf : Upf) (f : Far) (m : FwdIE)
    (hm : (m.ieType = ieOuterHeaderCreation ∧ ∃ err, m.OuterHeaderCreation = .error err) ∨
      (m.ieType = iePFCPSMReqFlags ∧ ∃ err, m.PFCPSMReqFlags = .error err)) :
    parseFwdIE ip2int upf f m = f := by
  unfold parseFwdIE
  rcases hm with ⟨hty, err, he⟩ | ⟨hty, err, he⟩
  · rw [if_pos hty, he]
  · have h1 : ¬ m.ieType = ieOuterHeaderCreation := by rw [hty]; decide
    have h2 : ¬ m.ieType = ieDestinationInterface := by rw [hty]; decide
    rw [if_neg h1, if_neg h2, if_pos hty, he]

/-- C20: whenever `parseFAR` returns an error, the fields `FseidIP`, `DstIntf`,
`SendEndMarker`, `TunnelType`, `TunnelIP4Src`, `TunnelIP4Dst`, `TunnelTEID` and
`TunnelPort` are what they were before the call. -/
theorem parseFAR_error_frame (ip2int : IP → Nat) (f : Far) (farIE : FarIE) (fseid : Nat)
    (upf : Upf) (op : operation) (h : (f.parseFAR ip2int farIE fseid upf op).2 ≠ none) :
    (f.parseFAR ip2int farIE fseid upf op).1.FseidIP = f.FseidIP ∧
    (f.parseFAR ip2int farIE fseid upf op).1.DstIntf = f.DstIntf ∧
    (f.parseFAR ip2int farIE fseid upf op).1.SendEndMarker = f.SendEndMarker ∧
    (f.parseFAR ip2int farIE fseid upf op).1.TunnelType = f.TunnelType ∧
    (f.parseFAR ip2int farIE fseid upf op).1.TunnelIP4Src = f.TunnelIP4Src ∧
    (f.parseFAR ip2int farIE fseid upf op).1.TunnelIP4Dst = f.TunnelIP4Dst ∧
    (f.parseFAR ip2int farIE fseid upf op).1.TunnelTEID = f.TunnelTEID ∧
    (f.parseFAR ip2int farIE fseid upf op).1.TunnelPort = f.TunnelPort := by
  rcases parseFAR_cases ip2int f farIE fseid upf op with
    ⟨-, hrest⟩ | ⟨id, a, l, -, -, -, -, hres⟩
  · exact hrest
  · exact absurd (by rw [hres]; rfl) h

theorem parseFAR_error_frame_witness :
    (usedFar.parseFAR ip2intBE forwardNoGroupIE 100 testUpf create).2 ≠ none ∧
    ((usedFar.parseFAR ip2intBE forwardNoGroupIE 100 testUpf create).1.FseidIP
        = usedFar.FseidIP ∧
    (usedFar.parseFAR ip2intBE forwardNoGroupIE 100 testUpf create).1.DstIntf
        = usedFar.DstIntf ∧
    (usedFar.parseFAR ip2intBE forwardNoGroupIE 100 testUpf create).1.SendEndMarker
        = usedFar.SendEndMarker ∧
    (usedFar.parseFAR ip2intBE forwardNoGroupIE 100 testUpf create).1.TunnelType
        = usedFar.TunnelType ∧
    (usedFar.parseFAR ip2intBE forwardNoGroupIE 100 testUpf create).1.TunnelIP4Src
        = usedFar.TunnelIP4Src ∧
    (usedFar.parseFAR ip2intBE forwardNoGroupIE 100 testUpf create).1.TunnelIP4Dst
        = usedFar.TunnelIP4Dst ∧
    (usedFar.parseFAR ip2intBE forwardNoGroupIE 100 testUpf create).1.TunnelTEID
        = usedFar.TunnelTEID ∧
    (usedFar.parseFAR ip2intBE forwardNoGroupIE 100 testUpf create).1.TunnelPort
        = usedFar.TunnelPort) :=
  ⟨by decide, parseFAR_error_frame ip2intBE usedFar forwardNoGroupIE 100 testUpf create
    (by decide)⟩

/-! ## The Node: intake of new peers -/

theorem PeerMap.load_eq_none_iff (m : PeerMap) (key : String) :
    m.Load key = none ↔ key ∉ m.keys := by
  induction m with
  | nil => simp [PeerMap.Load, PeerMap.keys]
  | cons e rest ih =>
    obtain ⟨k, v⟩ := e
    by_cases hk : k = key
    · simp [PeerMap.Load, PeerMap.keys, hk]
    · have hk2 : ¬ key = k := fun h => hk h.symm
      simp only [PeerMap.Load, if_neg hk, ih]
      simp [PeerMap.keys, hk2]

theorem PeerMap.delete_of_not_mem (m : PeerMap) (key : String) (h : key ∉ m.keys) :
    m.Delete key = m := by
  unfold PeerMap.Delete
  rw [List.filter_eq_self]
  intro e he
  have : e.1 ≠ key := by
    intro heq
    exact h (by rw [← heq]; exact List.mem_map_of_mem Prod.fst he)
  simpa using this

theorem PeerMap.keys_store_of_not_mem (m : PeerMap) (key : String) (v : PFCPConn)
    (h : key ∉ m.keys) : (m.Store key v).keys = m.keys ++ [key] := by
  simp [PeerMap.Store, PeerMap.delete_of_not_mem m key h, PeerMap.keys]

/-- One datagram: either the state is unchanged, or the address was not a key, one
connection was constructed for it, and the address is the one new key. -/
theorem handleDatagram_cases
    (construct : String → String → Option (List Nat) → Option PFCPConn) (lAddrStr : String)
    (st : Intake) (rAddrStr : String) (payload : List Nat) :
    handleDatagram construct lAddrStr st rAddrStr payload = st ∨
    (rAddrStr ∉ st.pConns.keys ∧
      ∃ p, construct lAddrStr rAddrStr (some payload) = some p ∧
        (handleDatagram construct lAddrStr st rAddrStr payload).constructed
          = st.constructed ++ [(rAddrStr, p)] ∧
        (handleDatagram construct lAddrStr st rAddrStr payload).pConns.keys
          = st.pConns.keys ++ [rAddrStr]) := by
  unfold handleDatagram
  cases hl : st.pConns.Load rAddrStr with
  | some c => left; rfl
  | none =>
    have hnot : rAddrStr ∉ st.pConns.keys := (PeerMap.load_eq_none_iff _ _).mp hl
    cases hc : construct lAddrStr rAddrStr (some payload) with
    | none => left; simp [NewPFCPConn, hc]
    | some p =>
      right
      refine ⟨hnot, p, rfl, ?_, ?_⟩
      · simp [NewPFCPConn, hc]
      · simp only [NewPFCPConn, hc]
        exact PeerMap.keys_store_of_not_mem _ _ _ hnot

/-- Any run of the intake loop: the connections it constructs are for pairwise different
addresses, none of which was a key at the start; the old keys stay, the new addresses
become keys, and the keys stay pairwise different. -/
theorem handleNewPeers_run
    (construct : String → String → Option (List Nat) → Option PFCPConn) (lAddrStr : String)
    (reads : List ReadResult) (st : Intake) :
    ∃ new : List (String × PFCPConn),
      (handleNewPeers construct lAddrStr st reads).constructed = st.constructed ++ new ∧
      (handleNewPeers construct lAddrStr st reads).pConns.keys
        = st.pConns.keys ++ new.map Prod.fst ∧
      (∀ a ∈ new.map Prod.fst, a ∉ st.pConns.keys) ∧
      (new.map Prod.fst).Nodup := by
  induction reads generalizing st with
  | nil => exact ⟨[], by simp [handleNewPeers]⟩
  | cons r rest ih =>
    cases r with
    | closed => exact ⟨[], by simp [handleNewPeers]⟩
    | failed => simpa [handleNewPeers] using ih st
    | datagram rAddrStr payload =>
      simp only [handleNewPeers]
      obtain ⟨new, h1, h2, h3, h4⟩ := ih (handleDatagram construct lAddrStr st rAddrStr payload)
      rcases handleDatagram_cases construct lAddrStr st rAddrStr payload with
        hsame | ⟨hnot, p, -, hcon, hkeys⟩
      · rw [hsame] at h1 h2 h3 ⊢
        exact ⟨new, h1, h2, h3, h4⟩
      · rw [hcon] at h1
        rw [hkeys] at h2 h3
        refine ⟨(rAddrStr, p) :: new, ?_, ?_, ?_, ?_⟩
        · rw [h1]; simp
        · rw [h2]; simp
        · intro a ha
          simp only [List.map_cons, List.mem_cons] at ha
          rcases ha with rfl | hmem
          · exact hnot
          · intro hin
            exact h3 a hmem (List.mem_append_left _ hin)
        · simp only [List.map_cons, List.nodup_cons]
          refine ⟨?_, h4⟩
          intro hin
          exact h3 rAddrStr hin (List.mem_append_right _ (List.mem_singleton_self _))

/-- C14: in the intake loop a datagram whose source address is already a key of the peer
map is dropped, with the map and the constructed connections unchanged; a connection is
constructed only for an address that is not a key; and over any run of the loop that
starts with pairwise different keys, the constructed connections are for pairwise
different addresses that were not keys at the start, and the keys of the map stay pairwise
different. -/
theorem handleNewPeers_no_duplicate
    (construct : String → String → Option (List Nat) → Option PFCPConn) (lAddrStr : String)
    (st : Intake) (reads : List ReadResult) (hkeys : st.pConns.keys.Nodup) :
    (∀ rAddrStr payload, rAddrStr ∈ st.pConns.keys →
      handleDatagram construct lAddrStr st rAddrStr payload = st) ∧
    (∀ rAddrStr payload,
      (handleDatagram construct lAddrStr st rAddrStr payload).constructed ≠ st.constructed →
      rAddrStr ∉ st.pConns.keys) ∧
    (∃ new : List (String × PFCPConn),
      (handleNewPeers construct lAddrStr st reads).constructed = st.constructed ++ new ∧
      (new.map Prod.fst).Nodup ∧
      (∀ a ∈ new.map Prod.fst, a ∉ st.pConns.keys) ∧
      (handleNewPeers construct lAddrStr st reads).pConns.keys.Nodup) := by
  refine ⟨?_, ?_, ?_⟩
  · intro rAddrStr payload hin
    rcases handleDatagram_cases construct lAddrStr st rAddrStr payload with h | ⟨hnot, -⟩
    · exact h
    · exact absurd hin hnot
  · intro rAddrStr payload hne
    rcases handleDatagram_cases construct lAddrStr st rAddrStr payload with h | ⟨hnot, -⟩
    · rw [h] at hne; exact absurd rfl hne
    · exact hnot
  · obtain ⟨new, h1, h2, h3, h4⟩ := handleNewPeers_run construct lAddrStr reads st
    refine ⟨new, h1, h4, h3, ?_⟩
    rw [h2]
    exact List.Nodup.append hkeys h4 (fun a ha hb => h3 a hb ha)

theorem handleNewPeers_no_duplicate_witness :
    (PeerMap.keys onePeer).Nodup ∧
    ((∀ rAddrStr payload, rAddrStr ∈ PeerMap.keys onePeer →
      handleDatagram alwaysConstruct "0.0.0.0:8805" { pConns := onePeer, constructed := [] }
        rAddrStr payload = { pConns := onePeer, constructed := [] }) ∧
    (∀ rAddrStr payload,
      (handleDatagram alwaysConstruct "0.0.0.0:8805" { pConns := onePeer, constructed := [] }
        rAddrStr payload).constructed ≠ [] →
      rAddrStr ∉ PeerMap.keys onePeer) ∧
    (∃ new : List (String × PFCPConn),
      (handleNewPeers alwaysConstruct "0.0.0.0:8805" { pConns := onePeer, constructed := [] }
        [.datagram "10.0.0.2:8805" [1], .datagram "10.0.0.3:8805" [2], .failed,
         .datagram "10.0.0.3:8805" [3]]).constructed = [] ++ new ∧
      (new.map Prod.fst).Nodup ∧
      (∀ a ∈ new.map Prod.fst, a ∉ PeerMap.keys onePeer) ∧
      (handleNewPeers alwaysConstruct "0.0.0.0:8805" { pConns := onePeer, constructed := [] }
        [.datagram "10.0.0.2:8805" [1], .datagram "10.0.0.3:8805" [2], .failed,
         .datagram "10.0.0.3:8805" [3]]).pConns.keys.Nodup)) :=
  ⟨by decide,
   handleNewPeers_no_duplicate alwaysConstruct "0.0.0.0:8805"
     { pConns := onePeer, constructed := [] }
     [.datagram "10.0.0.2:8805" [1], .datagram "10.0.0.3:8805" [2], .failed,
      .datagram "10.0.0.3:8805" [3]] (by decide)⟩

/-! ## The Node: shutdown -/

/-- Deleting a key leaves no entry for it. -/
theorem PeerMap.not_mem_keys_delete (m : PeerMap) (key : String) :
    key ∉ (m.Delete key).keys := by
  simp [PeerMap.Delete, PeerMap.keys]

/-- Deleting keys adds no key. -/
theorem PeerMap.not_mem_keys_foldl_delete (q : List String) (m : PeerMap) (a : String)
    (h : a ∉ m.keys) : a ∉ (q.foldl PeerMap.Delete m).keys := by
  induction q generalizing m with
  | nil => exact h
  | cons x rest ih =>
    rw [List.foldl_cons]
    apply ih
    intro hin
    apply h
    simp only [PeerMap.Delete, PeerMap.keys, List.mem_map, List.mem_filter] at hin ⊢
    obtain ⟨e, ⟨he, -⟩, hfst⟩ := hin
    exact ⟨e, he, hfst⟩

/-- Receiving the whole content of the channel deletes every address in it. -/
theorem PeerMap.foldl_delete_removes (q : List String) (m : PeerMap) (a : String)
    (h : a ∈ q) : (q.foldl PeerMap.Delete m).Load a = none := by
  rw [PeerMap.load_eq_none_iff]
  induction q generalizing m with
  | nil => cases h
  | cons x rest ih =>
    rw [List.foldl_cons]
    rcases List.mem_cons.mp h with rfl | hmem
    · exact PeerMap.not_mem_keys_foldl_delete rest _ _ (PeerMap.not_mem_keys_delete m _)
    · exact ih _ hmem

/-- When nothing is sent on the channel after the shutdown branch is entered, the branch
reaches `close(node.done)` and every address that was buffered is gone from the map. -/
theorem serveShutdown_quiet (pConns : PeerMap) (q : List String) :
    ∃ m, serveShutdown pConns q { duringClear := [], beforeLenCheck := [] } = some m ∧
      ∀ a ∈ q, m.Load a = none :=
  ⟨q.foldl PeerMap.Delete pConns, rfl, fun a ha => PeerMap.foldl_delete_removes q pConns a ha⟩

/-- Whenever an address is sent between the exit of `clearLoop` and the evaluation of
`len(node.pConnDone)`, the shutdown branch never reaches `close(node.done)`. -/
theorem serveShutdown_late_arrival (pConns : PeerMap) (q : List String) (arr : Arrivals)
    (h : arr.beforeLenCheck ≠ []) : serveShutdown pConns q arr = none := by
  have hlen : arr.beforeLenCheck.length > 0 := List.length_pos.mpr h
  simp [serveShutdown, hlen, rangeLoop]

/-- C15 at the failing schedule: the channel holds one buffered address at shutdown and a
second connection sends its address after `clearLoop` has taken its `default` branch and
before `len(node.pConnDone)` is evaluated. `Serve` enters the `range` loop on the open
channel and never reaches `close(node.done)`; with no such arrival it does. -/
theorem serveShutdown_never_done :
    serveShutdown onePeer ["10.0.0.2:8805"]
      { duringClear := [], beforeLenCheck := ["10.0.0.3:8805"] } = none ∧
    serveShutdown onePeer ["10.0.0.2:8805"]
      { duringClear := [], beforeLenCheck := [] } = some [] := by
  decide

/-! ## Evaluations on the sample inputs -/

theorem parseFAR_sendEndMarker_witness :
    (Far.parseFAR ip2intBE usedFar malformedOuterHeaderGroupIE 100 testUpf update).2 = none ∧
    (Far.parseFAR ip2intBE usedFar malformedOuterHeaderGroupIE 100 testUpf update).1.SendEndMarker
      = true ∧
    ((Far.parseFAR ip2intBE usedFar forwardNoGroupIE 100 testUpf create).2 ≠ none ∧
     (Far.parseFAR ip2intBE usedFar forwardNoGroupIE 100 testUpf create).1.SendEndMarker
      = usedFar.SendEndMarker) :=
  ⟨by decide,
   ((parseFAR_sendEndMarker ip2intBE usedFar malformedOuterHeaderGroupIE 100 testUpf update).1
      (by decide)).mpr
     ⟨_, Or.inl ⟨rfl, rfl⟩, smReqFlagsIE 2, by simp, rfl, 2, rfl, by decide⟩,
   by decide,
   (parseFAR_sendEndMarker ip2intBE usedFar forwardNoGroupIE 100 testUpf create).2
     (by decide)⟩

/-! ## The FAR parser with the panics of the calls it makes -/

/-- A loop iteration panics exactly on the sub-elements that `fwdIEPanics` marks; on the
others it returns what `parseFwdIE` computes. -/
theorem parseFwdIEOrPanic_eq (pn : Panics) (ip2int : IP → Nat) (upf : Upf) (f : Far)
    (e : FwdIE) :
    parseFwdIEOrPanic pn ip2int upf f e =
      if fwdIEPanics pn upf e then none else some (parseFwdIE ip2int upf f e) := by
  unfold parseFwdIEOrPanic fwdIEPanics parseFwdIE
  dsimp only
  by_cases h1 : e.ieType = ieOuterHeaderCreation
  · simp only [h1, if_true]
    cases hp : pn.OuterHeaderCreation e
    · cases ho : e.OuterHeaderCreation with
      | error err => simp
      | ok o => cases hq : pn.ip2int o.IPv4Address <;> simp [hq]
    · simp
  · simp only [h1, if_false]
    by_cases h2 : e.ieType = ieDestinationInterface
    · simp only [h2, if_true]
      cases hp : pn.DestinationInterface e
      · cases hd : e.DestinationInterface.2 with
        | some err => simp
        | none =>
          by_cases ha : e.DestinationInterface.1 = DstInterfaceAccess
          · cases hq : pn.ip2int upf.AccessIP <;> simp [ha, hq]
          · by_cases hc : e.DestinationInterface.1 = DstInterfaceCore
            · have hca : ¬ DstInterfaceCore = DstInterfaceAccess := by decide
              cases hq : pn.ip2int upf.CoreIP <;> simp [hc, hca, hq]
            · simp [ha, hc]
      · simp
    · simp only [h2, if_false]
      by_cases h3 : e.ieType = iePFCPSMReqFlags
      · simp only [h3, if_true]
        cases hp : pn.PFCPSMReqFlags e
        · cases hfl : e.PFCPSMReqFlags with
          | error err => simp
          | ok fl => cases hb : has2ndBit fl <;> simp [hb]
        · simp
      · simp [h3]

/-- The loop panics exactly when one of the sub-elements makes a call panic; otherwise it
returns what the loop of `parseFwdIE` computes. -/
theorem parseFwdIEsLoopOrPanic_eq (pn : Panics) (ip2int : IP → Nat) (upf : Upf)
    (l : List FwdIE) (f : Far) :
    parseFwdIEsLoopOrPanic pn ip2int upf f l =
      if l.any (fwdIEPanics pn upf) then none
      else some (l.foldl (parseFwdIE ip2int upf) f) := by
  induction l generalizing f with
  | nil => simp [parseFwdIEsLoopOrPanic]
  | cons e rest ih =>
    simp only [parseFwdIEsLoopOrPanic, parseFwdIEOrPanic_eq, List.any_cons, List.foldl_cons]
    cases hp : fwdIEPanics pn upf e
    · simp [ih]
    · simp

/-- The tail of `parseFAR` with the panics, in terms of the tail without them. -/
theorem parseFwdIEsOrPanic_eq (pn : Panics) (ip2int : IP → Nat) (upf : Upf) (f : Far)
    (l : List FwdIE) :
    parseFwdIEsOrPanic pn ip2int upf f l =
      if l.any (fwdIEPanics pn upf) then none else some (parseFwdIEs ip2int upf f l) := by
  unfold parseFwdIEsOrPanic parseFwdIEs
  rw [parseFwdIEsLoopOrPanic_eq]
  cases hp : l.any (fwdIEPanics pn upf) <;> simp

/-- Whenever `parseFAR` with the panics returns, it returns what `Far.parseFAR` computes:
the two agree on every call that does not panic. -/
theorem parseFAROrPanic_returns (pn : Panics) (ip2int : IP → Nat) (f : Far) (farIE : FarIE)
    (fseid : Nat) (upf : Upf) (op : operation) (r : Far × Option Error)
    (h : f.parseFAROrPanic pn ip2int farIE fseid upf op = some r) :
    f.parseFAR ip2int farIE fseid upf op = r := by
  have key : ∀ (g : Far) (l : List FwdIE),
      parseFwdIEsOrPanic pn ip2int upf g l = some r → parseFwdIEs ip2int upf g l = r := by
    intro g l hl
    rw [parseFwdIEsOrPanic_eq] at hl
    cases hp : l.any (fwdIEPanics pn upf)
    · rw [hp] at hl; simpa using hl
    · rw [hp] at hl; simp at hl
  unfold Far.parseFAROrPanic at h
  unfold Far.parseFAR
  dsimp only at h ⊢
  cases hid : farIE.FARID with
  | error err => rw [hid] at h; simpa using h
  | ok id =>
    rw [hid] at h
    dsimp only at h ⊢
    cases ha : farIE.ApplyAction with
    | error err => rw [ha] at h; simpa using h
    | ok a =>
      rw [ha] at h
      dsimp only at h ⊢
      by_cases hz : a = 0
      · rw [if_pos hz] at h ⊢; simpa using h
      · rw [if_neg hz] at h ⊢
        by_cases hc : op = create
        · rw [if_pos hc] at h ⊢
          by_cases hfw : (a &&& ActionForward) ≠ 0
          · rw [if_pos hfw] at h ⊢
            cases hl : farIE.ForwardingParameters with
            | error err => rw [hl] at h; simpa using h
            | ok l => rw [hl] at h; exact key _ l h
          · rw [if_neg hfw] at h ⊢
            exact key _ [] h
        · rw [if_neg hc] at h ⊢
          by_cases hu : op = update
          · rw [if_pos hu] at h ⊢
            cases hl : farIE.UpdateForwardingParameters with
            | error err => rw [hl] at h; simpa using h
            | ok l => rw [hl] at h; exact key _ l h
          · rw [if_neg hu] at h ⊢
            simpa using h

/-- With FAR-ID `id`, a non-zero action `a` and a readable group `l` selected by the
operation, `parseFAR` with the panics is the sub-element loop run on `l`. -/
theorem parseFAROrPanic_reads_group (pn : Panics) (ip2int : IP → Nat) (f : Far)
    (farIE : FarIE) (fseid : Nat) (upf : Upf) (op : operation) (id a : Nat) (l : List FwdIE)
    (hid : farIE.FARID = .ok id) (ha : farIE.ApplyAction = .ok a) (hne : a ≠ 0)
    (hgrp : (op = update ∧ farIE.UpdateForwardingParameters = .ok l) ∨
      (op = create ∧ (a &&& ActionForward) ≠ 0 ∧ farIE.ForwardingParameters = .ok l)) :
    f.parseFAROrPanic pn ip2int farIE fseid upf op =
      parseFwdIEsOrPanic pn ip2int upf
        { f with FseID := fseid, FarID := id, ApplyAction := a } l := by
  have hcu : ¬ update = create := by decide
  rcases hgrp with ⟨hu, hl⟩ | ⟨hc, hfw, hl⟩
  · simp only [Far.parseFAROrPanic, hid, ha, hne, hu, hcu, hl, if_true, if_false]
  · simp only [Far.parseFAROrPanic, hid, ha, hne, hc, hfw, hl, if_true, if_false, ne_eq,
      not_false_eq_true]

/-- C8, as the spec states it, fails: a Create-FAR element with FAR-ID 1 and Apply-Action
Forward (non-zero) but without a forwarding-parameters group makes `parseFAR` with
operation create return the error of the group lookup; and one whose group holds an
Outer-Header-Creation without IPv4 address makes it panic in `ip2int`, so that it does
not return at all. -/
theorem parseFAR_create_counterexample :
    (forwardNoGroupIE.FARID = .ok 1 ∧ forwardNoGroupIE.ApplyAction = .ok 2 ∧
      Far.parseFAROrPanic observedPanics ip2intBE {} forwardNoGroupIE 100 testUpf create
        = some ({ FarID := 1, FseID := 100, ApplyAction := 2 }, some (.decode 3))) ∧
    (createForwardNoAddressIE.FARID = .ok 1 ∧ createForwardNoAddressIE.ApplyAction = .ok 2 ∧
      createForwardNoAddressIE.ForwardingParameters = .ok [outerHeaderNoAddressIE] ∧
      Far.parseFAROrPanic observedPanics ip2intBE {} createForwardNoAddressIE 100 testUpf create
        = none) :=
  ⟨⟨rfl, rfl, by decide⟩, ⟨rfl, rfl, rfl, by decide⟩⟩

/-- C8, amended: for a Create-FAR element with FAR-ID `id` and a non-zero Apply-Action `a`
such that, whenever the Forward bit of `a` is set, the forwarding-parameters group can be
read and none of its sub-elements makes a call of the loop panic, `parseFAR` with
operation create returns, with no error, and afterwards `FarID = id` and
`FseID = fseid`. -/
theorem parseFAR_create_returns_ok (pn : Panics) (ip2int : IP → Nat) (f : Far)
    (farIE : FarIE) (fseid : Nat) (upf : Upf) (id a : Nat)
    (hid : farIE.FARID = .ok id) (ha : farIE.ApplyAction = .ok a) (hne : a ≠ 0)
    (hgrp : (a &&& ActionForward) ≠ 0 →
      ∃ fwdIEs, farIE.ForwardingParameters = .ok fwdIEs ∧
        ∀ e ∈ fwdIEs, fwdIEPanics pn upf e = false) :
    ∃ g, f.parseFAROrPanic pn ip2int farIE fseid upf create = some (g, none) ∧
      g.FarID = id ∧ g.FseID = fseid := by
  by_cases hfw : (a &&& ActionForward) ≠ 0
  · obtain ⟨fwdIEs, hl, hsafe⟩ := hgrp hfw
    obtain ⟨-, h2, h3, -⟩ :=
      parseFwdIEs_frame ip2int upf { f with FseID := fseid, FarID := id, ApplyAction := a } fwdIEs
    have hany : fwdIEs.any (fwdIEPanics pn upf) = false := by
      rw [List.any_eq_false]
      intro e he
      simp [hsafe e he]
    rw [parseFAROrPanic_reads_group pn ip2int f farIE fseid upf create id a fwdIEs hid ha hne
      (Or.inr ⟨rfl, hfw, hl⟩), parseFwdIEsOrPanic_eq, hany]
    exact ⟨_, rfl, h2, h3⟩
  · obtain ⟨-, h2, h3, -⟩ :=
      parseFwdIEs_frame ip2int upf { f with FseID := fseid, FarID := id, ApplyAction := a } []
    have hrun : f.parseFAROrPanic pn ip2int farIE fseid upf create =
        parseFwdIEsOrPanic pn ip2int upf
          { f with FseID := fseid, FarID := id, ApplyAction := a } [] := by
      simp only [Far.parseFAROrPanic, hid, ha, hne, hfw, if_true, if_false]
    rw [hrun, parseFwdIEsOrPanic_eq]
    exact ⟨_, rfl, h2, h3⟩

theorem parseFAR_create_returns_ok_witness :
    (createForwardIE.FARID = .ok 1 ∧ createForwardIE.ApplyAction = .ok 2 ∧ (2 : Nat) ≠ 0 ∧
      ((2 : Nat) &&& ActionForward) ≠ 0 ∧
      createForwardIE.ForwardingParameters
        = .ok [dstIntfIE DstInterfaceCore, outerHeaderIE 100 [10, 0, 1, 1]] ∧
      ∀ e ∈ [dstIntfIE DstInterfaceCore, outerHeaderIE 100 [10, 0, 1, 1]],
        fwdIEPanics observedPanics testUpf e = false) ∧
    ∃ g, usedFar.parseFAROrPanic observedPanics ip2intBE createForwardIE 100 testUpf create
        = some (g, none) ∧ g.FarID = 1 ∧ g.FseID = 100 :=
  ⟨⟨rfl, rfl, by decide, by decide, rfl, by decide⟩,
   parseFAR_create_returns_ok observedPanics ip2intBE usedFar createForwardIE 100 testUpf 1 2
     rfl rfl (by decide) (fun _ => ⟨_, rfl, by decide⟩)⟩

/-- A malformed Outer-Header-Creation, one whose accessor returns an error, is skipped: the
call with the group `pre ++ m :: post` panics or returns exactly as the call with the
group `pre ++ post` does. -/
theorem parseFAROrPanic_malformed_ohc_skipped (pn : Panics) (ip2int : IP → Nat) (f : Far)
    (farIE : FarIE) (fseid : Nat) (upf : Upf) (op : operation) (id a : Nat)
    (pre post : List FwdIE) (m : FwdIE) (err : Error)
    (hid : farIE.FARID = .ok id) (ha : farIE.ApplyAction = .ok a) (hne : a ≠ 0)
    (hgrp : (op = update ∧ farIE.UpdateForwardingParameters = .ok (pre ++ m :: post)) ∨
      (op = create ∧ (a &&& ActionForward) ≠ 0 ∧
        farIE.ForwardingParameters = .ok (pre ++ m :: post)))
    (hty : m.ieType = ieOuterHeaderCreation) (hm : m.OuterHeaderCreation = .error err)
    (hpn : pn.OuterHeaderCreation m = false) :
    f.parseFAROrPanic pn ip2int farIE fseid upf op =
      f.parseFAROrPanic pn ip2int
        { farIE with
          ForwardingParameters := .ok (pre ++ post)
          UpdateForwardingParameters := .ok (pre ++ post) } fseid upf op := by
  have hgrp2 : (op = update ∧
      ({ farIE with
          ForwardingParameters := .ok (pre ++ post)
          UpdateForwardingParameters := .ok (pre ++ post) } : FarIE).UpdateForwardingParameters
        = .ok (pre ++ post)) ∨
      (op = create ∧ (a &&& ActionForward) ≠ 0 ∧
        ({ farIE with
          ForwardingParameters := .ok (pre ++ post)
          UpdateForwardingParameters := .ok (pre ++ post) } : FarIE).ForwardingParameters
        = .ok (pre ++ post)) := by
    rcases hgrp with ⟨hu, -⟩ | ⟨hc, hfw, -⟩
    · exact Or.inl ⟨hu, rfl⟩
    · exact Or.inr ⟨hc, hfw, rfl⟩
  have h2 := parseFAROrPanic_reads_group pn ip2int f
    ({ farIE with
        ForwardingParameters := .ok (pre ++ post)
        UpdateForwardingParameters := .ok (pre ++ post) } : FarIE)
    fseid upf op id a (pre ++ post) hid ha hne hgrp2
  have hskip : ∀ g : Far, parseFwdIE ip2int upf g m = g :=
    fun g => parseFwdIE_malformed_skip ip2int upf g m (Or.inl ⟨hty, err, hm⟩)
  have hmp : fwdIEPanics pn upf m = false := by
    simp [fwdIEPanics, hty, hm, hpn]
  rw [parseFAROrPanic_reads_group pn ip2int f farIE fseid upf op id a _ hid ha hne hgrp, h2,
    parseFwdIEsOrPanic_eq, parseFwdIEsOrPanic_eq]
  simp only [parseFwdIEs, List.any_append, List.any_cons, hmp, Bool.false_or,
    List.foldl_append, List.foldl_cons, hskip]

/-- C19 at the failing input: the group of `emptyFlagsGroupIE` is the group of `coreOnlyIE`
with a PFCP-SM-Request-Flags of empty payload added. The accessor `PFCPSMReqFlags()`
panics on it, so `parseFAR` does not return, where without the sub-element it returns no
error; the handler `if err != nil { ...; continue }` that would skip it is never
reached. -/
theorem parseFAR_empty_flags_panics :
    emptyFlagsGroupIE.UpdateForwardingParameters
      = .ok [dstIntfIE DstInterfaceCore, smReqFlagsEmptyIE] ∧
    coreOnlyIE.UpdateForwardingParameters = .ok [dstIntfIE DstInterfaceCore] ∧
    smReqFlagsEmptyIE.ieType = iePFCPSMReqFlags ∧
    observedPanics.PFCPSMReqFlags smReqFlagsEmptyIE = true ∧
    Far.parseFAROrPanic observedPanics ip2intBE {} emptyFlagsGroupIE 100 testUpf update = none ∧
    Far.parseFAROrPanic observedPanics ip2intBE {} coreOnlyIE 100 testUpf update
      = some ({ FarID := 1, FseID := 100, ApplyAction := 2, DstIntf := 1,
                TunnelIP4Src := ip2intBE [10, 0, 10, 1] }, none) :=
  ⟨rfl, rfl, rfl, rfl, by decide, by decide⟩

/-! ## The end-marker encoder -/

end Pfcpiface
